import Mathlib

/-!
Shallow embedding of the resume-critic core (job-description parsing,
keyword matching, ATS document compatibility scoring) and proofs about it.

Conventions used throughout:
* Python strings are Lean `String`s; character classes (`isAlpha`, `toLower`)
  follow the ASCII fragment, which is the fragment exercised by the code's
  fixed pattern tables.
* Python `set` values whose iteration order is implementation-defined are
  modelled as first-occurrence-deduplicated lists; no theorem depends on the
  order of such a collection.
* Python floats are modelled as rationals (`ℚ`).
-/

namespace ResumeCritic

/-! ## Generic string helpers -/

/-- Substring occurrence on character lists (Python `needle in haystack`). -/
def listOccurs (n : List Char) : List Char → Bool
  | [] => n == []
  | c :: t => n.isPrefixOf (c :: t) || listOccurs n t

/-- Substring occurrence on strings (Python `needle in haystack`). -/
def occursSub (n h : String) : Bool := listOccurs n.data h.data

/-- Python `str.lower()` (ASCII fragment), kept kernel-computable by
working on the character list. -/
def lcString (s : String) : String := String.mk (s.data.map Char.toLower)

/-- Python `str.strip()` (ASCII whitespace), kernel-computable. -/
def pyStrip (s : String) : String :=
  String.mk (((s.data.dropWhile Char.isWhitespace).reverse.dropWhile Char.isWhitespace).reverse)

/-- Python `str.split(sep)` for a one-character separator, keeping empty
pieces, kernel-computable. -/
def splitOnChar (sep : Char) : List Char → List (List Char)
  | [] => [[]]
  | c :: r =>
    if c == sep then [] :: splitOnChar sep r
    else
      match splitOnChar sep r with
      | h :: t => (c :: h) :: t
      | [] => [[c]]

/-- Case-insensitive substring occurrence. -/
def occursCI (n h : String) : Bool := occursSub (lcString n) (lcString h)

/-- Append an element only if not already present
(models insertion into a Python `set`, keeping first-occurrence order). -/
def insertUniq (l : List String) (x : String) : List String :=
  if x ∈ l then l else l ++ [x]

/-- First-occurrence deduplication (models Python `list(set(xs))` up to the
implementation-defined set iteration order). -/
def dedupFirst (l : List String) : List String := l.foldl insertUniq []

/-- Helper loop for `pySplitWS`. -/
def wordsAux : List Char → List Char → List String
  | [], acc => if acc = [] then [] else [String.mk acc.reverse]
  | c :: r, acc =>
    if c.isWhitespace then
      if acc = [] then wordsAux r [] else String.mk acc.reverse :: wordsAux r []
    else wordsAux r (c :: acc)

/-- Python `str.split()` with no argument: split on whitespace runs,
dropping empty pieces. -/
def pySplitWS (s : String) : List String := wordsAux s.data []

/-! ## ATS compatibility checker (src/src/checkers/ats_compatibility.py)

The checker consumes a loaded document snapshot: paragraphs carrying runs
(font name / font size in points), a table count, sections with header and
footer paragraph texts and an optional column count (absent attribute or a
raised-and-swallowed exception is `none`), and the relationship target list
used to detect embedded images. -/

structure DocRun where
  fontName : Option String
  fontSizePt : Option Int
deriving DecidableEq, Repr

structure DocPara where
  text : String
  runs : List DocRun
deriving DecidableEq, Repr

structure DocSect where
  columnCount : Option Int
  headerParas : List String
  footerParas : List String
deriving DecidableEq, Repr

structure DocSnapshot where
  paragraphs : List DocPara
  tables : Nat
  sections : List DocSect
  relTargets : List String
deriving DecidableEq, Repr

/-- The scoring block of the rules YAML.  The checker loads it but reads
its weights from the class constant `SCORING_WEIGHTS` instead. -/
structure ScoringRules where
  file_format_weight : Int
  layout_weight : Int
  font_weight : Int
  graphics_weight : Int
  headers_weight : Int
deriving DecidableEq, Repr

/-- The rules table (`self.rules`): formatting section plus scoring section. -/
structure Rules where
  allowedExts : List String
  allowedFonts : List String
  sizeMin : Option Int
  sizeMax : Option Int
  scoring : ScoringRules
deriving DecidableEq, Repr

/-- The default rules used when the YAML file is absent. -/
def defaultRules : Rules :=
  { allowedExts := [".docx"]
    allowedFonts := ["Calibri", "Arial", "Times New Roman"]
    sizeMin := some 10
    sizeMax := some 12
    scoring :=
      { file_format_weight := 30
        layout_weight := 25
        font_weight := 10
        graphics_weight := 20
        headers_weight := 15 } }

/-- Class constant `SCORING_WEIGHTS`. -/
def SCORING_WEIGHTS : String → Int
  | "file_format" => 30
  | "layout" => 25
  | "font" => 10
  | "graphics" => 20
  | "headers_footers" => 15
  | _ => 0

structure Issue where
  severity : String
  issue : String
  deduction : Int
deriving DecidableEq, Repr

/-- `os.path.splitext(p)[1]`: the extension of the basename, where leading
dots of the basename do not start an extension. -/
def splitextExt (p : String) : String :=
  let base := (splitOnChar '/' p.data).getLastD []
  let rest := base.dropWhile (· == '.')
  let tailRev := rest.reverse.takeWhile (· ≠ '.')
  if tailRev.length == rest.length then ""
  else String.mk ('.' :: tailRev.reverse)

/-- `check_file_format`: deduction (non-positive, as returned) together with
the issue records appended. -/
def check_file_format (cvPath : String) (rules : Rules) : Int × List Issue :=
  let ext := splitextExt cvPath
  let allowed := rules.allowedExts
  if ¬ (lcString ext ∈ allowed) then
    (-(SCORING_WEIGHTS "file_format"),
      [{ severity := "HIGH"
         issue := "File format is " ++ ext ++ ", should be " ++ String.intercalate ", " allowed
         deduction := (SCORING_WEIGHTS "file_format").natAbs }])
  else (0, [])

/-- The per-section multi-column scan of `check_layout`, with its `break`:
the first section with a known column count greater than one triggers once. -/
def anyMulticol : List DocSect → Bool
  | [] => false
  | s :: rest =>
    match s.columnCount with
    | some n => if n > 1 then true else anyMulticol rest
    | none => anyMulticol rest

/-- `check_layout`. -/
def check_layout (doc : Option DocSnapshot) : Int × List Issue :=
  match doc with
  | none => (0, [])
  | some d =>
    let tableIssues : List Issue :=
      if d.tables > 0 then
        [{ severity := "HIGH"
           issue := "Found " ++ toString d.tables ++ " table(s) - ATS may not parse correctly"
           deduction := 15 }]
      else []
    let tableDed : Int := if d.tables > 0 then 15 else 0
    let colIssues : List Issue :=
      if anyMulticol d.sections then
        [{ severity := "HIGH", issue := "Multi-column layout detected", deduction := 10 }]
      else []
    let colDed : Int := if anyMulticol d.sections then 10 else 0
    (-(tableDed + colDed), tableIssues ++ colIssues)

/-- Font names used by runs that fall outside the allowed list
(first-occurrence order for the Python set). -/
def collectNonstd (d : DocSnapshot) (allowed : List String) : List String :=
  d.paragraphs.foldl
    (fun acc p =>
      p.runs.foldl
        (fun acc r =>
          match r.fontName with
          | some nm => if nm ≠ "" ∧ ¬ (nm ∈ allowed) then insertUniq acc nm else acc
          | none => acc)
        acc)
    []

/-- Font sizes (in points) outside the configured range, with duplicates,
in document order (`invalid_sizes`). -/
def collectBadSizes (d : DocSnapshot) (minS maxS : Int) : List Int :=
  d.paragraphs.foldl
    (fun acc p =>
      p.runs.foldl
        (fun acc r =>
          match r.fontSizePt with
          | some pt => if pt ≠ 0 ∧ (pt < minS ∨ pt > maxS) then acc ++ [pt] else acc
          | none => acc)
        acc)
    []

/-- `check_fonts`. -/
def check_fonts (doc : Option DocSnapshot) (rules : Rules) : Int × List Issue :=
  match doc with
  | none => (0, [])
  | some d =>
    let minS := rules.sizeMin.getD 10
    let maxS := rules.sizeMax.getD 12
    let nonstd := collectNonstd d rules.allowedFonts
    let badSizes := collectBadSizes d minS maxS
    let fontIssues : List Issue :=
      if nonstd ≠ [] then
        [{ severity := "MEDIUM"
           issue := "Non-standard fonts detected: " ++ String.intercalate ", " nonstd
           deduction := SCORING_WEIGHTS "font" }]
      else []
    let fontDed : Int := if nonstd ≠ [] then SCORING_WEIGHTS "font" else 0
    let sizeIssues : List Issue :=
      if badSizes ≠ [] then
        [{ severity := "LOW"
           issue := "Font sizes outside recommended range (" ++ toString minS ++ "-"
             ++ toString maxS ++ "pt): "
             ++ String.intercalate ", " ((dedupFirst (badSizes.map toString)))
           deduction := 5 }]
      else []
    let sizeDed : Int := if badSizes ≠ [] then 5 else 0
    (-(fontDed + sizeDed), fontIssues ++ sizeIssues)

/-- Whether one header/footer paragraph list counts as having content:
Python `if paras:` followed by `any(p.text.strip() for p in paras)`. -/
def parasHaveContent (paras : List String) : Bool :=
  paras ≠ [] && paras.any (fun p => pyStrip p ≠ "")

/-- One section's contribution to `check_headers_footers`: header issue
then footer issue, in loop order. -/
def hfSection (s : DocSect) : Int × List Issue :=
  let h : Int × List Issue :=
    if parasHaveContent s.headerParas then
      (8, [{ severity := "MEDIUM", issue := "Header contains text - ATS may not read it", deduction := 8 }])
    else (0, [])
  let f : Int × List Issue :=
    if parasHaveContent s.footerParas then
      (7, [{ severity := "MEDIUM", issue := "Footer contains text - ATS may not read it", deduction := 7 }])
    else (0, [])
  (h.1 + f.1, h.2 ++ f.2)

/-- `check_headers_footers`: the per-section loop, accumulating deduction
and issue records in document order. -/
def headersFootersFold : List DocSect → Int × List Issue
  | [] => (0, [])
  | s :: rest =>
    let cur := hfSection s
    let r := headersFootersFold rest
    (cur.1 + r.1, cur.2 ++ r.2)

/-- `check_headers_footers`. -/
def check_headers_footers (doc : Option DocSnapshot) : Int × List Issue :=
  match doc with
  | none => (0, [])
  | some d => (-(headersFootersFold d.sections).1, (headersFootersFold d.sections).2)

/-- `check_graphics`. -/
def check_graphics (doc : Option DocSnapshot) : Int × List Issue :=
  match doc with
  | none => (0, [])
  | some d =>
    let hasGraphics := d.relTargets.any (fun t => occursSub "image" (lcString t))
    if hasGraphics then
      (-(SCORING_WEIGHTS "graphics"),
        [{ severity := "HIGH"
           issue := "Images/graphics detected - ATS cannot read these"
           deduction := SCORING_WEIGHTS "graphics" }])
    else (0, [])

/-- The fixed unusual-bullet glyph table. -/
def unusualBullets : List String := ["→", "►", "▪", "▫", "■", "□", "◆", "◇"]

/-- `check_special_characters`. -/
def check_special_characters (doc : Option DocSnapshot) : Int × List Issue :=
  match doc with
  | none => (0, [])
  | some d =>
    let text := String.intercalate "\n" (d.paragraphs.map (·.text))
    let foundUnusual := unusualBullets.filter (fun b => occursSub b text)
    if foundUnusual ≠ [] then
      (-5,
        [{ severity := "LOW"
           issue := "Unusual bullet points detected: " ++ String.intercalate ", " foundUnusual
           deduction := 5 }])
    else (0, [])

/-- The mutable checker object: path, rules, optional loaded document,
accumulated issue list and score field. -/
structure CheckerState where
  cvPath : String
  rules : Rules
  doc : Option DocSnapshot
  issues : List Issue
  score : Int
deriving DecidableEq, Repr

/-- A freshly constructed checker (`__init__` sets `issues = []`, `score = 100`). -/
def initChecker (cvPath : String) (rules : Rules) (doc : Option DocSnapshot) : CheckerState :=
  { cvPath := cvPath, rules := rules, doc := doc, issues := [], score := 100 }

/-- All six checks in the order `calculate_total_score` runs them:
total (non-positive) deduction and the issue records appended. -/
def runChecks (cvPath : String) (rules : Rules) (doc : Option DocSnapshot) : Int × List Issue :=
  let r1 := check_file_format cvPath rules
  let r2 := check_layout doc
  let r3 := check_fonts doc rules
  let r4 := check_headers_footers doc
  let r5 := check_graphics doc
  let r6 := check_special_characters doc
  (r1.1 + r2.1 + r3.1 + r4.1 + r5.1 + r6.1,
    r1.2 ++ r2.2 ++ r3.2 ++ r4.2 ++ r5.2 ++ r6.2)

/-- `calculate_total_score`: resets `self.score` to 100, adds every check's
(negative) return to it and appends each check's issues to `self.issues`
(which is *not* reset), returning `max(0, self.score)`. -/
def calculate_total_score (st : CheckerState) : Int × CheckerState :=
  (max 0 (100 + (runChecks st.cvPath st.rules st.doc).1),
   { st with
      score := 100 + (runChecks st.cvPath st.rules st.doc).1
      issues := st.issues ++ (runChecks st.cvPath st.rules st.doc).2 })

/-- `_get_grade`. -/
def getGrade (score : Int) : String :=
  if score ≥ 90 then "A - Excellent"
  else if score ≥ 80 then "B - Good"
  else if score ≥ 70 then "C - Acceptable"
  else if score ≥ 60 then "D - Needs Improvement"
  else "F - Major Issues"

/-- The recommendation contributed by one issue record (the `elif` chain of
`_get_recommendations`). -/
def recFor (i : Issue) : List String :=
  let lower := lcString i.issue
  if occursSub "table" lower then ["Remove all tables and use plain text with bullets"]
  else if occursSub "column" lower then ["Convert to single-column layout"]
  else if occursSub "font" lower then
    ["Change all fonts to Calibri, Arial, or Times New Roman (10-12pt)"]
  else if occursSub "header" lower || occursSub "footer" lower then
    ["Move all header/footer content into main document body"]
  else if occursSub "image" lower || occursSub "graphic" lower then
    ["Remove all images, logos, and graphics"]
  else if occursSub "format" lower then ["Convert file to .docx format"]
  else []

/-- `_get_recommendations`: keyword-in-issue classification followed by
`list(set(...))` deduplication. -/
def getRecommendations (issues : List Issue) : List String :=
  dedupFirst (issues.foldl (fun acc i => acc ++ recFor i) [])

/-! ### Violation indicators

Each check's deduction is determined by the indicators below, read off the
same state the checks consume; they name the "violations" of the scoring
table. -/

/-- File-format violation: extension (lowercased) outside the allowed list. -/
def extViol (st : CheckerState) : Bool :=
  ¬ (lcString (splitextExt st.cvPath) ∈ st.rules.allowedExts)

/-- Layout violation: at least one table. -/
def tablesViol (st : CheckerState) : Bool :=
  match st.doc with
  | none => false
  | some d => d.tables > 0

/-- Layout violation: some section with a known column count above one. -/
def multicolViol (st : CheckerState) : Bool :=
  match st.doc with
  | none => false
  | some d => anyMulticol d.sections

/-- Font violation: some run uses a non-empty font name outside the allowed
list. -/
def nonstdFontViol (st : CheckerState) : Bool :=
  match st.doc with
  | none => false
  | some d => collectNonstd d st.rules.allowedFonts ≠ []

/-- Font violation: some run's font size falls outside the configured range. -/
def badSizeViol (st : CheckerState) : Bool :=
  match st.doc with
  | none => false
  | some d => collectBadSizes d (st.rules.sizeMin.getD 10) (st.rules.sizeMax.getD 12) ≠ []

/-- Number of sections with non-empty header text. -/
def hdrCount (st : CheckerState) : Nat :=
  match st.doc with
  | none => 0
  | some d => (d.sections.filter (fun s => parasHaveContent s.headerParas)).length

/-- Number of sections with non-empty footer text. -/
def ftrCount (st : CheckerState) : Nat :=
  match st.doc with
  | none => 0
  | some d => (d.sections.filter (fun s => parasHaveContent s.footerParas)).length

/-- Graphics violation: some relationship target referencing an image. -/
def graphicsViol (st : CheckerState) : Bool :=
  match st.doc with
  | none => false
  | some d => d.relTargets.any (fun t => occursSub "image" (lcString t))

/-- Special-character violation: some unusual bullet glyph in the text. -/
def specialViol (st : CheckerState) : Bool :=
  match st.doc with
  | none => false
  | some d =>
    unusualBullets.filter
      (fun b => occursSub b (String.intercalate "\n" (d.paragraphs.map (·.text)))) ≠ []

/-- The total deduction of a full check run, expressed through the
violation indicators. -/
def totalDeduction (st : CheckerState) : Int :=
  (if extViol st then 30 else 0)
  + (if tablesViol st then 15 else 0)
  + (if multicolViol st then 10 else 0)
  + (if nonstdFontViol st then 10 else 0)
  + (if badSizeViol st then 5 else 0)
  + 8 * (hdrCount st : Int)
  + 7 * (ftrCount st : Int)
  + (if graphicsViol st then 20 else 0)
  + (if specialViol st then 5 else 0)

/-- "Adding violations": every violation of `st` is still present in `st'`,
and `st'` may have more.  The score claim's monotonicity is stated along
this order. -/
def ViolLE (st st' : CheckerState) : Prop :=
  (extViol st → extViol st')
  ∧ (tablesViol st → tablesViol st')
  ∧ (multicolViol st → multicolViol st')
  ∧ (nonstdFontViol st → nonstdFontViol st')
  ∧ (badSizeViol st → badSizeViol st')
  ∧ hdrCount st ≤ hdrCount st'
  ∧ ftrCount st ≤ ftrCount st'
  ∧ (graphicsViol st → graphicsViol st')
  ∧ (specialViol st → specialViol st')

structure ATSReport where
  score : Int
  grade : String
  issues : List Issue
  recommendations : List String
deriving DecidableEq, Repr

/-- Stable sort of issues by deduction descending (Python `sorted(...,
key=lambda x: x['deduction'], reverse=True)`). -/
def sortIssues (issues : List Issue) : List Issue :=
  issues.mergeSort (fun a b => decide (b.deduction ≤ a.deduction))

/-- `generate_report`: runs `calculate_total_score` (mutating the state) and
builds the report from the accumulated issue list. -/
def generate_report (st : CheckerState) : ATSReport × CheckerState :=
  let (total, st') := calculate_total_score st
  ({ score := total
     grade := getGrade total
     issues := sortIssues st'.issues
     recommendations := getRecommendations st'.issues }, st')

/-! ## Keyword matcher (src/src/checkers/keyword_matcher.py)

The matcher lowercases the CV text once at construction, lowercases and
strips each keyword, and tests presence with the regex
`\b re.escape(keyword) \b` (word boundaries); `re.escape` makes the keyword
a literal, so the search is an exact-phrase search with `\b` at both ends. -/

/-- Regex word characters (`\w` over the ASCII fragment). -/
def wordChar (c : Char) : Bool := c.isAlpha || c.isDigit || c == '_'

/-- Word-character test on an optional character; text edges count as
non-word. -/
def wopt : Option Char → Bool
  | none => false
  | some c => wordChar c

/-- The character just before position `i`, if any. -/
def charBefore (text : List Char) (i : Nat) : Option Char :=
  if i = 0 then none else text.get? (i - 1)

/-- Does `\b kw \b` match at position `i` of `text`?  A `\b` asserts that
the word-character status differs across the position; for an empty keyword
the two `\b`s collapse into one. -/
def bmatchAt (kw text : List Char) (i : Nat) : Bool :=
  match kw with
  | [] => wopt (charBefore text i) != wopt (text.get? i)
  | c :: _ =>
    kw.isPrefixOf (text.drop i)
    && (wopt (charBefore text i) != wordChar c)
    && (wopt kw.getLast? != wopt (text.get? (i + kw.length)))

/-- `re.search(r'\b' + re.escape(kw) + r'\b', text)` as a boolean. -/
def bsearch (kw text : List Char) : Bool :=
  (List.range (text.length + 1)).any (bmatchAt kw text)

/-- Keyword presence test as the matcher performs it: both the keyword and
the CV text have already been lowercased (the `re.IGNORECASE` flag is
redundant at that point for the ASCII fragment). -/
def kwPresent (kw cvLower : String) : Bool := bsearch kw.data cvLower.data

/-- `keyword.lower().strip()`. -/
def normKw (k : String) : String := pyStrip (lcString k)

/-- One category's normalized keyword list: drop falsy (empty) entries,
then lowercase and strip (duplicates preserved). -/
def normCat (ks : List String) : List String :=
  (ks.filter (fun k => k ≠ "")).map normKw

/-- The normalized keywords of every category concatenated, duplicates
kept (the stream of insertions into the `all_keywords` set). -/
def allKeysRaw (jdk : List (String × List String)) : List String :=
  jdk.foldl (fun acc p => acc ++ normCat p.2) []

/-- The deduplicated pool `all_keywords` built across every category
(modelled in first-occurrence order). -/
def allKeywordsOf (jdk : List (String × List String)) : List String :=
  dedupFirst (allKeysRaw jdk)

/-- The keywords of the pool found in the CV (`matched_keywords`). -/
def matchedOf (jdk : List (String × List String)) (cvText : String) : List String :=
  (allKeywordsOf jdk).filter (fun k => kwPresent k (lcString cvText))

/-- The keywords of the pool not found in the CV (`missing_keywords`). -/
def missingOf (jdk : List (String × List String)) (cvText : String) : List String :=
  (allKeywordsOf jdk).filter (fun k => ¬ kwPresent k (lcString cvText))

/-- Python `round(q)` to an integer: nearest, ties to even. -/
def pyRound0 (q : ℚ) : ℤ :=
  let f := ⌊q⌋
  let frac := q - f
  if frac < 1/2 then f
  else if frac > 1/2 then f + 1
  else if f % 2 = 0 then f else f + 1

/-- Python `round(q, 1)`. -/
def round1 (q : ℚ) : ℚ := (pyRound0 (q * 10) : ℚ) / 10

structure CatStat where
  matched : Nat
  total : Nat
  percentage : ℚ
deriving DecidableEq, Repr

structure MatchReport where
  total_keywords : Nat
  matched_keywords : Nat
  missing_keywords : Nat
  match_percentage : ℚ
  missing_keywords_list : List String
  category_breakdown : List (String × CatStat)
deriving DecidableEq, Repr

/-- One entry of `category_breakdown`: the category's keyword list is
re-normalized (duplicates kept) and each keyword re-tested independently. -/
def categoryStat (cvLower : String) (ks : List String) : CatStat :=
  let ck := normCat ks
  let matched := (ck.filter (fun k => kwPresent k cvLower)).length
  { matched := matched
    total := ck.length
    percentage := if ck.length > 0 then (matched : ℚ) / (ck.length : ℚ) * 100 else 0 }

/-- `calculate_match_percentage`. -/
def calculate_match_percentage (jdk : List (String × List String)) (cvText : String) :
    MatchReport :=
  let cvLower := lcString cvText
  let allKw := allKeywordsOf jdk
  let matched := matchedOf jdk cvText
  let missing := missingOf jdk cvText
  let total := allKw.length
  { total_keywords := total
    matched_keywords := matched.length
    missing_keywords := missing.length
    match_percentage :=
      if total > 0 then round1 ((matched.length : ℚ) / (total : ℚ) * 100) else 0
    missing_keywords_list := missing.take 20
    category_breakdown := jdk.map (fun p => (p.1, categoryStat cvLower p.2)) }

/-- Sum of `matched` over the category breakdown. -/
def aggMatched (r : MatchReport) : Nat :=
  (r.category_breakdown.map (fun p => p.2.matched)).sum

/-- Sum of `total` over the category breakdown. -/
def aggTotal (r : MatchReport) : Nat :=
  (r.category_breakdown.map (fun p => p.2.total)).sum

/-- The match percentage recomputed from the category breakdown's
aggregated counts. -/
def recomputedPercentage (r : MatchReport) : ℚ :=
  if aggTotal r > 0 then (aggMatched r : ℚ) / (aggTotal r : ℚ) * 100 else 0

/-- Modelled from the spec: "a keyword is present iff it occurs as a
whole-word/phrase match in the document text — substring matches inside
larger words do not count".  An occurrence at `i` is a whole-word/phrase
occurrence when no word character is adjacent to it on either side. -/
def wholeWordAt (kw text : List Char) (i : Nat) : Bool :=
  kw.isPrefixOf (text.drop i)
  && !wopt (charBefore text i)
  && !wopt (text.get? (i + kw.length))

/-- Modelled from the spec: whole-word/phrase occurrence anywhere in the text. -/
def wholeWordOccurs (kw text : List Char) : Bool :=
  (List.range (text.length + 1)).any (wholeWordAt kw text)

/-! ## Job description parser (src/src/parsers/jd_parser.py)

The parser is a bundle of regex/heuristic extractors.  Each fixed pattern of
the source is embedded as a dedicated scanner over `List Char` following the
backtracking semantics of the Python `re` engine on that concrete pattern.
Scanners that resume after a match use an explicit fuel argument (always
called with `length + 1`, which bounds the number of scanning steps). -/

/-- Case-insensitive literal match: the rest of the text after `lit`, if
`lit` starts it. -/
def ciDrop : List Char → List Char → Option (List Char)
  | [], cs => some cs
  | _ :: _, [] => none
  | l :: ls, c :: cs => if l.toLower == c.toLower then ciDrop ls cs else none

/-- Index of the first occurrence of `n` in the text (Python `str.index`
guarded by `in`). -/
def firstOccIdx (n : List Char) : List Char → Option Nat
  | [] => if n == [] then some 0 else none
  | c :: t =>
    if n.isPrefixOf (c :: t) then some 0
    else (firstOccIdx n t).map (· + 1)

def REQUIRED_MARKERS : List String :=
  ["required", "must have", "essential", "mandatory", "must", "need"]

def PREFERRED_MARKERS : List String :=
  ["preferred", "nice to have", "desirable", "bonus", "plus", "advantage"]

/-- The concatenated 500-character windows following each found marker
(`extract_required_vs_preferred`'s section accumulation; the marker is
located in the lowercased text and the window sliced from the original). -/
def markerWindows (markers : List String) (t : String) : String :=
  markers.foldl
    (fun acc m =>
      match firstOccIdx m.data (lcString t).data with
      | some start => acc ++ String.mk ((t.data.drop start).take 500)
      | none => acc)
    ""

def isBulletChar (c : Char) : Bool := c == '•' || c == '-' || c == '*'

/-- The `\s*(.+?)(?=\n|$)` tail shared by both bullet patterns: greedy
whitespace, then the lazy group running to the next newline.  When the
whitespace runs to the end of the text the engine backtracks into it, so the
group becomes the last non-newline whitespace character.  Returns the group
and the rest of the text after the match. -/
def lazyLineGroup (r : List Char) : Option (List Char × List Char) :=
  let ws := r.takeWhile Char.isWhitespace
  let rest2 := r.dropWhile Char.isWhitespace
  match rest2 with
  | _ :: _ =>
    let grp := rest2.takeWhile (· ≠ '\n')
    some (grp, rest2.drop grp.length)
  | [] =>
    let nls := ws.reverse.takeWhile (· == '\n')
    match ws.reverse.dropWhile (· == '\n') with
    | k :: _ => some ([k], nls.reverse)
    | [] => none

/-- `finditer` over `[•\-\*]\s*(.+?)(?=\n|$)`, collecting each group
stripped. -/
def scanBulletsA : Nat → List Char → List String
  | 0, _ => []
  | _, [] => []
  | fuel + 1, c :: r =>
    if isBulletChar c then
      match lazyLineGroup r with
      | some (grp, rem) => pyStrip (String.mk grp) :: scanBulletsA fuel rem
      | none => scanBulletsA fuel r
    else scanBulletsA fuel r

/-- `finditer` over `\d+\.\s*(.+?)(?=\n|$)`, collecting each group
stripped. -/
def scanBulletsB : Nat → List Char → List String
  | 0, _ => []
  | _, [] => []
  | fuel + 1, c :: r =>
    if c.isDigit then
      let ds := r.takeWhile Char.isDigit
      match r.drop ds.length with
      | '.' :: r2 =>
        match lazyLineGroup r2 with
        | some (grp, rem) => pyStrip (String.mk grp) :: scanBulletsB fuel rem
        | none => scanBulletsB fuel r
      | _ => scanBulletsB fuel r
    else scanBulletsB fuel r

/-- `_extract_bullets`: both patterns in order, results concatenated. -/
def extractBullets (t : String) : List String :=
  scanBulletsA (t.data.length + 1) t.data ++ scanBulletsB (t.data.length + 1) t.data

/-- `extract_required_vs_preferred`: the (required, preferred) bullet lists. -/
def extract_required_vs_preferred (t : String) : List String × List String :=
  (extractBullets (markerWindows REQUIRED_MARKERS t),
   extractBullets (markerWindows PREFERRED_MARKERS t))

/-! ### Verbatim phrases -/

def isSentEnd (c : Char) : Bool := c == '.' || c == '!' || c == '?'

/-- `re.split(r'[.!?]\s+', text)`: a separator is a sentence-ending
punctuation character followed by a (maximal) whitespace run. -/
def splitSentsAux : Nat → List Char → List Char → List String
  | 0, acc, _ => [String.mk acc.reverse]
  | _, acc, [] => [String.mk acc.reverse]
  | fuel + 1, acc, c :: r =>
    if isSentEnd c && (match r.head? with | some c2 => c2.isWhitespace | none => false) then
      String.mk acc.reverse :: splitSentsAux fuel [] (r.dropWhile Char.isWhitespace)
    else splitSentsAux fuel (c :: acc) r

def splitSents (t : String) : List String :=
  splitSentsAux (t.data.length + 1) [] t.data

def skillIndicators : List String :=
  ["ability to", "experience with", "proficient in",
   "knowledge of", "skilled in", "expertise in",
   "strong skills", "demonstrated experience", "proven ability"]

/-- The per-sentence acceptance test of `extract_verbatim_phrases`
(sentence already stripped): non-empty, word count within bounds, and it
contains a skill-indicator phrase. -/
def vAccept (minLen maxLen : Nat) (s : String) : Bool :=
  s ≠ "" &&
  (let wc := (pySplitWS s).length
   minLen ≤ wc && wc ≤ maxLen && skillIndicators.any (fun ind => occursSub ind (lcString s)))

/-- `extract_verbatim_phrases` with the default bounds 10–30. -/
def extract_verbatim_phrases (t : String) : List String :=
  (((splitSents t).map pyStrip).filter (vAccept 10 30)).take 10

/-! ### Company values -/

def valueMarkers : List String :=
  ["our values", "company values", "core values", "we believe", "our culture", "values we"]

/-- `finditer` over `\b([A-Z][a-z]+)\b` (no IGNORECASE): an uppercase letter
not preceded by a word character, followed by a maximal non-empty lowercase
run whose following character is not a word character. -/
def scanCapWords : Nat → Option Char → List Char → List String
  | 0, _, _ => []
  | _, _, [] => []
  | fuel + 1, prev, c :: r =>
    if c.isUpper && !wopt prev then
      let ls := r.takeWhile Char.isLower
      let rest := r.drop ls.length
      if ls ≠ [] && !wopt rest.head? then
        String.mk (c :: ls) :: scanCapWords fuel ls.getLast? rest
      else scanCapWords fuel (some c) r
    else scanCapWords fuel (some c) r

/-- `extract_company_values`: per found marker, the first five capitalized
words of the following 500-character window; deduplicated at the end
(`list(set(...))`, modelled in first-occurrence order). -/
def extract_company_values (t : String) : List String :=
  dedupFirst
    (valueMarkers.foldl
      (fun acc m =>
        match firstOccIdx m.data (lcString t).data with
        | some start =>
          let sect := (t.data.drop start).take 500
          acc ++ (scanCapWords (sect.length + 1) none sect).take 5
        | none => acc)
      [])

/-! ### Structure analysis (`analyze_structure`) -/

structure JDStructure where
  sections : List String
  responsibilities : List String
  requirements : List String
deriving DecidableEq, Repr

/-- `^([A-Z][A-Z\s]+):?$` on a stripped line: the group is the line minus an
optional trailing colon. -/
def allCapsHeader (line : List Char) : Option (List Char) :=
  match line with
  | [] => none
  | c :: rest =>
    let body := if rest.getLast? == some ':' then rest.dropLast else rest
    if c.isUpper && body ≠ [] && body.all (fun x => x.isUpper || x.isWhitespace) then
      some (c :: body)
    else none

/-- `^([A-Z][a-z\s]+):$` on a stripped line. -/
def titleCaseHeader (line : List Char) : Option (List Char) :=
  match line with
  | [] => none
  | c :: rest =>
    if rest.getLast? == some ':' then
      let body := rest.dropLast
      if c.isUpper && body ≠ [] && body.all (fun x => x.isLower || x.isWhitespace) then
        some (c :: body)
      else none
    else none

/-- `^\*\*([^*]+)\*\*` on a stripped line. -/
def boldHeader (line : List Char) : Option (List Char) :=
  match line with
  | '*' :: '*' :: rest =>
    let run := rest.takeWhile (· ≠ '*')
    if run ≠ [] && (rest.drop run.length).take 2 == ['*', '*'] then some run else none
  | _ => none

/-- All header-pattern groups matching a stripped line, in pattern order
(the source tries every pattern: a line matching two patterns is recorded
twice). -/
def headerGroups (line : List Char) : List (List Char) :=
  (match allCapsHeader line with | some g => [g] | none => [])
  ++ (match titleCaseHeader line with | some g => [g] | none => [])
  ++ (match boldHeader line with | some g => [g] | none => [])

/-- `re.match(r'[•\-\*]\s*(.+)', stripped_line)`: the group after the bullet
marker and greedy whitespace (non-empty because the line is stripped). -/
def bulletLineGroup (line : String) : Option String :=
  match (pyStrip line).data with
  | c :: r =>
    if isBulletChar c then
      let rest := r.dropWhile Char.isWhitespace
      if rest ≠ [] then some (String.mk rest) else none
    else none
  | [] => none

/-- The bullet run collected under a classified header: bullets accumulate;
a non-empty non-bullet line not starting with an uppercase letter breaks the
run; other lines are skipped. -/
def collectBullets : List String → List String
  | [] => []
  | l :: rest =>
    match bulletLineGroup l with
    | some g => pyStrip g :: collectBullets rest
    | none =>
      let s := pyStrip l
      if s ≠ "" && !(match s.data.head? with | some c => c.isUpper | none => false) then []
      else collectBullets rest

/-- The line loop of `analyze_structure`: every header pattern match appends
a section name; responsibilities/requirements headers additionally collect
the bullet run from the following 19 lines. -/
def structLoop : List String → JDStructure → JDStructure
  | [], acc => acc
  | l :: rest, acc =>
    let groups := headerGroups (pyStrip l).data
    let acc :=
      groups.foldl
        (fun acc g =>
          let header := pyStrip (String.mk g)
          let hl := lcString header
          let acc := { acc with sections := acc.sections ++ [header] }
          if occursSub "responsibilit" hl || occursSub "what you" hl then
            { acc with responsibilities := acc.responsibilities ++ collectBullets (rest.take 19) }
          else if occursSub "requirement" hl || occursSub "about you" hl
              || occursSub "qualification" hl then
            { acc with requirements := acc.requirements ++ collectBullets (rest.take 19) }
          else acc)
        acc
    structLoop rest acc

def analyze_structure (t : String) : JDStructure :=
  structLoop ((splitOnChar '\n' t.data).map String.mk) ⟨[], [], []⟩

/-! ### Keyword density

The source prefers a spaCy tokenization when the optional language model is
available; the model is an external collaborator, so the embedded function
is the source's fallback path (`re.findall(r'\b[a-z]{4,}\b', text_lower)`
plus the small stop-word set). -/

/-- `finditer` over `\b[a-z]{4,}\b` on the lowercased text: maximal
lowercase runs of length ≥ 4 whose neighbours are not word characters. -/
def scanLowerTokens : Nat → Option Char → List Char → List String
  | 0, _, _ => []
  | _, _, [] => []
  | fuel + 1, prev, c :: r =>
    if c.isLower && !wopt prev then
      let run := c :: r.takeWhile Char.isLower
      let rest := r.drop (run.length - 1)
      if run.length ≥ 4 && !wopt rest.head? then
        String.mk run :: scanLowerTokens fuel run.getLast? rest
      else scanLowerTokens fuel (some c) r
    else scanLowerTokens fuel (some c) r

def densityStopWords : List String :=
  ["that", "this", "with", "from", "have", "will", "would", "could", "should"]

/-- Distinct words in first-occurrence order with their counts
(`collections.Counter` insertion order). -/
def wordCounts (ws : List String) : List (String × Nat) :=
  (dedupFirst ws).map (fun w => (w, ws.count w))

/-- `calculate_keyword_density` (fallback path): top 20 by frequency, ties
kept in first-occurrence order (`Counter.most_common` is a stable sort). -/
def calculate_keyword_density (t : String) : List (String × Nat) :=
  let lower := lcString t
  let words := (scanLowerTokens (lower.data.length + 1) none lower.data).filter
    (fun w => ¬ w ∈ densityStopWords)
  ((wordCounts words).mergeSort (fun a b => decide (b.2 ≤ a.2))).take 20

/-! ### Experience requirements -/

/-- Optional case-insensitive single character (`s?`). -/
def optCIChar (c : Char) : List Char → List Char
  | d :: r => if d.toLower == c then r else d :: r
  | [] => []

/-- Anchored match of `(\d+)\+?\s*(?:years?|yrs?)\s*(?:of\s*)?(?:experience|exp)?`
(IGNORECASE) at the head of `cs`; returns the whole match (`group(0)`) and
the rest. -/
def expMatchAt (cs : List Char) : Option (List Char × List Char) :=
  match cs.head? with
  | some c =>
    if c.isDigit then
      let ds := cs.takeWhile Char.isDigit
      let r1 := cs.drop ds.length
      let r2 := match r1 with | '+' :: t => t | _ => r1
      let r3 := r2.dropWhile Char.isWhitespace
      let afterYears : Option (List Char) :=
        match ciDrop "year".data r3 with
        | some t => some (optCIChar 's' t)
        | none =>
          match ciDrop "yr".data r3 with
          | some t => some (optCIChar 's' t)
          | none => none
      match afterYears with
      | none => none
      | some r4 =>
        let r5 := r4.dropWhile Char.isWhitespace
        let r6 :=
          match ciDrop "of".data r5 with
          | some t => t.dropWhile Char.isWhitespace
          | none => r5
        let r7 :=
          match ciDrop "experience".data r6 with
          | some t => t
          | none => match ciDrop "exp".data r6 with | some t => t | none => r6
        some (cs.take (cs.length - r7.length), r7)
    else none
  | none => none

/-- `finditer` over the experience pattern, collecting `group(0)`. -/
def scanExp : Nat → List Char → List String
  | 0, _ => []
  | _, [] => []
  | fuel + 1, c :: r =>
    match expMatchAt (c :: r) with
    | some (m, rest) => String.mk m :: scanExp fuel rest
    | none => scanExp fuel r

/-- Anchored match of `LIT\s+in\s+([A-Z][a-z\s]+)` (IGNORECASE) at the head
of `cs`, where `LIT` is `experience` or `background`; returns `group(0)` and
the rest. -/
def domMatchAt (lit : List Char) (cs : List Char) : Option (List Char × List Char) :=
  match ciDrop lit cs with
  | none => none
  | some r1 =>
    let ws1 := r1.takeWhile Char.isWhitespace
    if ws1 = [] then none
    else
      match ciDrop "in".data (r1.drop ws1.length) with
      | none => none
      | some r3 =>
        let ws2 := r3.takeWhile Char.isWhitespace
        if ws2 = [] then none
        else
          match r3.drop ws2.length with
          | c :: rest =>
            if c.isAlpha then
              let run := rest.takeWhile (fun x => x.isAlpha || x.isWhitespace)
              if run = [] then none
              else
                let r5 := rest.drop run.length
                some (cs.take (cs.length - r5.length), r5)
            else none
          | [] => none

/-- `finditer` over a domain-experience pattern, collecting `group(0)`. -/
def scanDom (lit : List Char) : Nat → List Char → List String
  | 0, _ => []
  | _, [] => []
  | fuel + 1, c :: r =>
    match domMatchAt lit (c :: r) with
    | some (m, rest) => String.mk m :: scanDom lit fuel rest
    | none => scanDom lit fuel r

/-- `extract_experience_requirements`: years-of-experience matches, then the
two domain patterns, deduplicated at the end (`list(set(...))`, modelled in
first-occurrence order). -/
def extract_experience_requirements (t : String) : List String :=
  let cs := t.data
  dedupFirst
    (scanExp (cs.length + 1) cs
      ++ scanDom "experience".data (cs.length + 1) cs
      ++ scanDom "background".data (cs.length + 1) cs)

/-! ### Technical skills -/

/-- `SKILL_PATTERNS`: category name with the alternation's literals in
pattern order. -/
def SKILL_PATTERNS : List (String × List String) :=
  [("programming", ["Python", "Java", "JavaScript", "R", "SQL", "C++", "Scala", "Ruby", "Go", "TypeScript"]),
   ("tools", ["Tableau", "Power BI", "Excel", "JIRA", "Git", "Docker", "AWS", "Azure", "GCP", "Kubernetes", "Jenkins"]),
   ("frameworks", ["React", "Angular", "Django", "Flask", "Pandas", "NumPy", "TensorFlow", "PyTorch", "Spark"]),
   ("databases", ["PostgreSQL", "MySQL", "MongoDB", "Redis", "Cassandra", "Oracle", "Snowflake", "Redshift"]),
   ("methodologies", ["Agile", "Scrum", "Kanban", "Waterfall", "DevOps", "CI/CD"])]

/-- Anchored match of `\b(alt1|alt2|...)\b` (IGNORECASE) at the head of
`cs`: every alternative starts with a letter, so the leading `\b` requires a
non-word character before the position; alternatives are tried in order and
the trailing `\b` compares the alternative's last character with the
following text character.  Returns the matched slice of the original text
and the rest. -/
def altMatchAt (alts : List String) (prev : Option Char) (cs : List Char) : Option (List Char × List Char) :=
  if wopt prev then none
  else
    alts.findSome? (fun alt =>
      match ciDrop alt.data cs with
      | some rest =>
        if wopt alt.data.getLast? != wopt rest.head? then
          some (cs.take alt.length, rest)
        else none
      | none => none)

/-- `finditer` over one category pattern, collecting `group(0)` (the slice
of the original text, preserving its casing). -/
def scanAlts (alts : List String) : Nat → Option Char → List Char → List String
  | 0, _, _ => []
  | _, _, [] => []
  | fuel + 1, prev, c :: r =>
    match altMatchAt alts prev (c :: r) with
    | some (m, rest) => String.mk m :: scanAlts alts fuel m.getLast? rest
    | none => scanAlts alts fuel (some c) r

/-- `extract_technical_skills`: all category matches pooled into a set and
returned alphabetically sorted. -/
def extract_technical_skills (t : String) : List String :=
  let cs := t.data
  let all := SKILL_PATTERNS.foldl (fun acc p => acc ++ scanAlts p.2 (cs.length + 1) none cs) []
  (dedupFirst all).mergeSort (fun a b => decide (a ≤ b))

/-! ### Job title extraction (`extract_job_title`)

The six regex templates are searched with `re.IGNORECASE | re.MULTILINE`,
so `[A-Z]` accepts any letter and `^` anchors at line starts. -/

/-- `[a-zA-Z\s]` under IGNORECASE. -/
def isTitleClassChar (c : Char) : Bool := c.isAlpha || c.isWhitespace

/-- Template 1's terminator `(?:\s+at|\s+to|\.|,)` tested at a position. -/
def p1Term (cs : List Char) : Bool :=
  (cs.head? == some '.') || (cs.head? == some ',')
  || (let ws := cs.takeWhile Char.isWhitespace
      ws ≠ [] &&
        ((ciDrop "at".data (cs.drop ws.length)).isSome
          || (ciDrop "to".data (cs.drop ws.length)).isSome))

/-- Lazy expansion of `([A-Z][a-zA-Z\s]+?)` followed by a terminator test:
consume one class character at a time and stop at the first position where
the terminator matches. -/
def lazyGroup (term : List Char → Bool) : Nat → List Char → List Char → Option (List Char)
  | 0, _, _ => none
  | _, _, [] => none
  | fuel + 1, acc, c :: rest =>
    if isTitleClassChar c then
      let acc' := acc ++ [c]
      if term rest then some acc' else lazyGroup term fuel acc' rest
    else none

/-- Anchored match of template 1,
`hiring\s+(?:a|an)\s+([A-Z][a-zA-Z\s]+?)(?:\s+at|\s+to|\.|,)`, at the head
of `cs`; returns the group. -/
def p1MatchAt (cs : List Char) : Option (List Char) :=
  match ciDrop "hiring".data cs with
  | none => none
  | some r1 =>
    let ws1 := r1.takeWhile Char.isWhitespace
    if ws1 = [] then none
    else
      let r2 := r1.drop ws1.length
      let afterArt : Option (List Char) :=
        match r2 with
        | c :: rest =>
          if c.toLower == 'a' then
            match rest with
            | d :: rest2 =>
              if d.isWhitespace then some (rest.dropWhile Char.isWhitespace)
              else if d.toLower == 'n' then
                match rest2.head? with
                | some e =>
                  if e.isWhitespace then some (rest2.dropWhile Char.isWhitespace) else none
                | none => none
              else none
            | [] => none
          else none
        | [] => none
      match afterArt with
      | none => none
      | some r3 =>
        match r3 with
        | c0 :: r4 => if c0.isAlpha then lazyGroup p1Term (r4.length + 1) [c0] r4 else none
        | [] => none

/-- `re.search` for template 1: leftmost anchored match. -/
def p1Search : Nat → List Char → Option (List Char)
  | 0, _ => none
  | _, [] => none
  | fuel + 1, c :: rest =>
    match p1MatchAt (c :: rest) with
    | some g => some g
    | none => p1Search fuel rest

/-- Template 2's terminator `\s*[-–]\s*[A-Z]` tested at a position. -/
def p2Term (cs : List Char) : Bool :=
  match cs.dropWhile Char.isWhitespace with
  | d :: r2 =>
    (d == '-' || d == '–') &&
      (match r2.dropWhile Char.isWhitespace with
       | e :: _ => e.isAlpha
       | [] => false)
  | [] => false

/-- Anchored match of template 2, `^([A-Z][a-zA-Z\s]+?)\s*[-–]\s*[A-Z]`, at
a line start. -/
def p2MatchAt (cs : List Char) : Option (List Char) :=
  match cs with
  | c0 :: r => if c0.isAlpha then lazyGroup p2Term (r.length + 1) [c0] r else none
  | [] => none

/-- `re.search` for template 2 under MULTILINE: the anchor accepts the
start of the text and every position following a newline. -/
def p2Search : Nat → Bool → List Char → Option (List Char)
  | 0, _, _ => none
  | _, _, [] => none
  | fuel + 1, atStart, c :: rest =>
    match (if atStart then p2MatchAt (c :: rest) else none) with
    | some g => some g
    | none => p2Search fuel (c == '\n') rest

/-- Anchored match of `LIT\s*([A-Z][a-zA-Z\s]+)` (templates 3–6) at the head
of `cs`: the greedy group is the first letter plus the maximal class run,
which must be non-empty. -/
def pLitMatchAt (lit : List Char) (cs : List Char) : Option (List Char) :=
  match ciDrop lit cs with
  | none => none
  | some r1 =>
    match r1.dropWhile Char.isWhitespace with
    | c0 :: r3 =>
      if c0.isAlpha then
        let run := r3.takeWhile isTitleClassChar
        if run = [] then none else some (c0 :: run)
      else none
    | [] => none

/-- `re.search` for templates 3–6. -/
def pLitSearch (lit : List Char) : Nat → List Char → Option (List Char)
  | 0, _ => none
  | _, [] => none
  | fuel + 1, c :: rest =>
    match pLitMatchAt lit (c :: rest) with
    | some g => some g
    | none => pLitSearch lit fuel rest

def searchP1 (t : String) : Option (List Char) := p1Search (t.data.length + 1) t.data

def searchP2 (t : String) : Option (List Char) := p2Search (t.data.length + 1) true t.data

def searchP3 (t : String) : Option (List Char) :=
  pLitSearch "Position:".data (t.data.length + 1) t.data

def searchP4 (t : String) : Option (List Char) :=
  pLitSearch "Role:".data (t.data.length + 1) t.data

def searchP5 (t : String) : Option (List Char) :=
  pLitSearch "Job Title:".data (t.data.length + 1) t.data

def searchP6 (t : String) : Option (List Char) :=
  pLitSearch "Title:".data (t.data.length + 1) t.data

/-- `re.sub(r'\s+', ' ', s)`: collapse each whitespace run to one space. -/
def collapseWS (cs : List Char) : List Char :=
  cs.foldr
    (fun c acc =>
      if c.isWhitespace then
        match acc with
        | ' ' :: _ => acc
        | _ => ' ' :: acc
      else c :: acc)
    []

/-- `title = match.group(1).strip(); title = re.sub(r'\s+', ' ', title)`. -/
def cleanTitle (g : List Char) : String :=
  String.mk (collapseWS (pyStrip (String.mk g)).data)

/-- One template step: clean the group and accept it only when its word
count is at most 6. -/
def tryTemplate (r : Option (List Char)) : Option String :=
  match r with
  | some g =>
    let title := cleanTitle g
    if (pySplitWS title).length ≤ 6 then some title else none
  | none => none

/-- The template phase of `extract_job_title`: templates in order, each
contributing only through its first match; the first template whose cleaned
title passes the word-count check wins. -/
def templateTitle (t : String) : Option String :=
  [searchP1 t, searchP2 t, searchP3 t, searchP4 t, searchP5 t, searchP6 t].findSome?
    tryTemplate

/-- The fallback acceptance test: 2–5 words, and every word starting with a
letter starts with an uppercase letter. -/
def fallbackOkWords (ws : List String) : Bool :=
  2 ≤ ws.length && ws.length ≤ 5 &&
  ((ws.filter (fun w => match w.data.head? with | some c => c.isAlpha | none => false)).all
    (fun w => match w.data.head? with | some c => c.isUpper | none => true))

/-- The fallback phase: scan the `'.'`-separated pieces of the first 500
characters for an acceptable span, returning its words joined by spaces. -/
def fallbackTitle (t : String) : Option String :=
  ((splitOnChar '.' (t.data.take 500)).map String.mk).findSome? (fun sent =>
    let ws := pySplitWS (pyStrip sent)
    if fallbackOkWords ws then some (String.intercalate " " ws) else none)

/-- `extract_job_title`. -/
def extract_job_title (t : String) : String :=
  match templateTitle t with
  | some s => s
  | none =>
    match fallbackTitle t with
    | some s => s
    | none => "Unknown Title"

/-! ### `extract_all` -/

structure JDAnalysis where
  job_title : String
  technical_skills : List String
  required_skills : List String
  preferred_skills : List String
  tools_technologies : List String
  verbatim_phrases : List String
  company_values : List String
  structure' : JDStructure
  keyword_density : List (String × Nat)
  experience_requirements : List String
deriving DecidableEq, Repr

/-- `extract_all`: every extractor on the same text, assembled into one
record (`tools_technologies` repeats the technical-skill extraction, as the
source notes). -/
def extract_all (t : String) : JDAnalysis :=
  let rp := extract_required_vs_preferred t
  { job_title := extract_job_title t
    technical_skills := extract_technical_skills t
    required_skills := rp.1
    preferred_skills := rp.2
    tools_technologies := extract_technical_skills t
    verbatim_phrases := extract_verbatim_phrases t
    company_values := extract_company_values t
    structure' := analyze_structure t
    keyword_density := calculate_keyword_density t
    experience_requirements := extract_experience_requirements t }

/-! ## Concrete instances used by witnesses and counterexamples -/

/-- A document with no violations at all. -/
def docClean : DocSnapshot :=
  { paragraphs := [{ text := "Experienced analyst",
                     runs := [{ fontName := some "Arial", fontSizePt := some 11 }] }]
    tables := 0
    sections := [{ columnCount := some 1, headerParas := [], footerParas := [] }]
    relTargets := [] }

/-- A document whose only violation is a single table. -/
def docTable : DocSnapshot :=
  { paragraphs := [{ text := "Experienced analyst",
                     runs := [{ fontName := some "Arial", fontSizePt := some 11 }] }]
    tables := 1
    sections := [{ columnCount := some 1, headerParas := [], footerParas := [] }]
    relTargets := [] }

/-- A document whose only violation is a multi-column section. -/
def docMulticol : DocSnapshot :=
  { paragraphs := []
    tables := 0
    sections := [{ columnCount := some 2, headerParas := [], footerParas := [] }]
    relTargets := [] }

/-- A document whose only violation is an out-of-range font size. -/
def docBadSize : DocSnapshot :=
  { paragraphs := [{ text := "x", runs := [{ fontName := some "Arial", fontSizePt := some 20 }] }]
    tables := 0
    sections := []
    relTargets := [] }

/-- The default rules with the scoring section's file-format weight changed
to 50 (the formatting section untouched). -/
def rulesW50 : Rules :=
  { defaultRules with scoring := { defaultRules.scoring with file_format_weight := 50 } }

/-! ## Theorems -/

theorem headersFootersFold_ded (sections : List DocSect) :
    (headersFootersFold sections).1 =
      8 * ((sections.filter (fun s => parasHaveContent s.headerParas)).length : Int)
      + 7 * ((sections.filter (fun s => parasHaveContent s.footerParas)).length : Int) := by
  induction sections with
  | nil => simp [headersFootersFold]
  | cons s rest ih =>
    by_cases h1 : parasHaveContent s.headerParas <;>
      by_cases h2 : parasHaveContent s.footerParas <;>
        simp [headersFootersFold, hfSection, h1, h2, ih, List.filter_cons] <;> omega

theorem headersFootersFold_len (sections : List DocSect) :
    (headersFootersFold sections).2.length =
      (sections.filter (fun s => parasHaveContent s.headerParas)).length
      + (sections.filter (fun s => parasHaveContent s.footerParas)).length := by
  induction sections with
  | nil => simp [headersFootersFold]
  | cons s rest ih =>
    by_cases h1 : parasHaveContent s.headerParas <;>
      by_cases h2 : parasHaveContent s.footerParas <;>
        simp [headersFootersFold, hfSection, h1, h2, ih, List.filter_cons] <;> omega

/-- C10: in `check_headers_footers` the header deduction (8) and footer
deduction (7) apply once per document section: a document whose `N` sections
all carry non-empty header text and non-empty footer text is deducted
`N × 15` and receives `2 × N` issue records. -/
theorem c10_headers_footers_per_section (d : DocSnapshot)
    (h : ∀ s ∈ d.sections, parasHaveContent s.headerParas ∧ parasHaveContent s.footerParas) :
    (check_headers_footers (some d)).1 = -(15 * (d.sections.length : Int)) ∧
    (check_headers_footers (some d)).2.length = 2 * d.sections.length := by
  have h1 : d.sections.filter (fun s => parasHaveContent s.headerParas) = d.sections :=
    List.filter_eq_self.mpr (fun s hs => (h s hs).1)
  have h2 : d.sections.filter (fun s => parasHaveContent s.footerParas) = d.sections :=
    List.filter_eq_self.mpr (fun s hs => (h s hs).2)
  refine ⟨?_, ?_⟩
  · rw [check_headers_footers, headersFootersFold_ded, h1, h2]; ring
  · rw [check_headers_footers, headersFootersFold_len, h1, h2]; omega

/-- Witness for C10 at a concrete two-section document. -/
theorem c10_headers_footers_per_section_witness :
    (check_headers_footers (some
      { paragraphs := []
        tables := 0
        sections :=
          [{ columnCount := none, headerParas := ["Jane Doe"], footerParas := ["page 1"] },
           { columnCount := none, headerParas := ["", "Jane Doe"], footerParas := ["page 2"] }]
        relTargets := [] })).1 = -(15 * 2) ∧
    (check_headers_footers (some
      { paragraphs := []
        tables := 0
        sections :=
          [{ columnCount := none, headerParas := ["Jane Doe"], footerParas := ["page 1"] },
           { columnCount := none, headerParas := ["", "Jane Doe"], footerParas := ["page 2"] }]
        relTargets := [] })).2.length = 2 * 2 :=
  c10_headers_footers_per_section _ (by decide)

/-- C4 (amended): an allowed extension (lowercased, compared against the
rules table's allowed list) deducts 0 and appends no issue; a disallowed one
deducts the class-level `SCORING_WEIGHTS` file-format weight (30) and the
issue records carry that weight — the scoring weights of the supplied rules
table are not consulted. -/
theorem c4_file_format_deduction (cvPath : String) (rules : Rules) :
    (lcString (splitextExt cvPath) ∈ rules.allowedExts →
      check_file_format cvPath rules = (0, [])) ∧
    (lcString (splitextExt cvPath) ∉ rules.allowedExts →
      (check_file_format cvPath rules).1 = -(SCORING_WEIGHTS "file_format") ∧
      ∀ i ∈ (check_file_format cvPath rules).2, i.deduction = 30) := by
  by_cases h : lcString (splitextExt cvPath) ∈ rules.allowedExts <;>
    simp [check_file_format, h, SCORING_WEIGHTS]

/-- Witness for C4's amended claim on both branches. -/
theorem c4_file_format_deduction_witness :
    check_file_format "cv.docx" defaultRules = (0, []) ∧
    ((check_file_format "cv.pdf" defaultRules).1 = -(SCORING_WEIGHTS "file_format") ∧
      ∀ i ∈ (check_file_format "cv.pdf" defaultRules).2, i.deduction = 30) :=
  ⟨(c4_file_format_deduction "cv.docx" defaultRules).1 (by decide),
   (c4_file_format_deduction "cv.pdf" defaultRules).2 (by decide)⟩

/-- C4 counterexample: with a rules table configuring a file-format weight
of 50, a disallowed extension is still deducted 30 — the weight written in
the supplied rules table is ignored in favour of the class constant. -/
theorem c4_counterexample :
    rulesW50.scoring.file_format_weight = 50 ∧
    lcString (splitextExt "cv.pdf") ∉ rulesW50.allowedExts ∧
    (check_file_format "cv.pdf" rulesW50).1 = -30 ∧
    ∀ i ∈ (check_file_format "cv.pdf" rulesW50).2,
      i.deduction ≠ rulesW50.scoring.file_format_weight := by decide

theorem headersFootersFold_sev (sections : List DocSect) :
    ∀ i ∈ (headersFootersFold sections).2, i.severity = "MEDIUM" := by
  induction sections with
  | nil => simp [headersFootersFold]
  | cons s rest ih =>
    by_cases h1 : parasHaveContent s.headerParas <;>
      by_cases h2 : parasHaveContent s.footerParas <;>
        simp_all [headersFootersFold, hfSection, h1, h2]

/-- C5 (amended): issue severities are fixed per check: file-format, layout
and graphics issues are HIGH; non-standard-font issues are MEDIUM (weight
10) while font-size issues are LOW (weight 5); header/footer issues are
MEDIUM; special-character issues are LOW. -/
theorem c5_issue_severities (cvPath : String) (rules : Rules) (doc : Option DocSnapshot) :
    (∀ i ∈ (check_file_format cvPath rules).2, i.severity = "HIGH") ∧
    (∀ i ∈ (check_layout doc).2, i.severity = "HIGH") ∧
    (∀ i ∈ (check_fonts doc rules).2,
      (i.severity = "MEDIUM" ∧ i.deduction = 10) ∨ (i.severity = "LOW" ∧ i.deduction = 5)) ∧
    (∀ i ∈ (check_headers_footers doc).2, i.severity = "MEDIUM") ∧
    (∀ i ∈ (check_graphics doc).2, i.severity = "HIGH") ∧
    (∀ i ∈ (check_special_characters doc).2, i.severity = "LOW") := by
  refine ⟨?_, ?_, ?_, ?_, ?_, ?_⟩
  · by_cases h : lcString (splitextExt cvPath) ∈ rules.allowedExts <;>
      simp [check_file_format, h]
  · cases doc with
    | none => simp [check_layout]
    | some d =>
      by_cases h1 : d.tables > 0 <;> by_cases h2 : anyMulticol d.sections <;>
        simp [check_layout, h1, h2]
  · cases doc with
    | none => simp [check_fonts]
    | some d =>
      by_cases h1 : collectNonstd d rules.allowedFonts ≠ [] <;>
        by_cases h2 : collectBadSizes d (rules.sizeMin.getD 10) (rules.sizeMax.getD 12) ≠ [] <;>
          simp [check_fonts, h1, h2, SCORING_WEIGHTS]
  · cases doc with
    | none => simp [check_headers_footers]
    | some d => exact fun i hi => headersFootersFold_sev d.sections i hi
  · cases doc with
    | none => simp [check_graphics]
    | some d =>
      by_cases h : d.relTargets.any (fun t => occursSub "image" (lcString t)) <;>
        simp [check_graphics, h]
  · cases doc with
    | none => simp [check_special_characters]
    | some d =>
      by_cases h : unusualBullets.filter
          (fun b => occursSub b (String.intercalate "\n" (d.paragraphs.map (·.text)))) ≠ [] <;>
        simp [check_special_characters, h]

/-- Witness for C5's amended claim on a concrete multi-column document. -/
theorem c5_issue_severities_witness :
    ((check_layout (some docMulticol)).2.headD
      { severity := "", issue := "", deduction := 0 }).severity = "HIGH" :=
  (c5_issue_severities "cv.docx" defaultRules (some docMulticol)).2.1 _ (by decide)

/-- C5 counterexample: an out-of-range font size produces a font issue of
severity LOW, not MEDIUM. -/
theorem c5_counterexample :
    ∃ i ∈ (check_fonts (some docBadSize) defaultRules).2, i.severity ≠ "MEDIUM" := by decide

theorem check_file_format_fst (st : CheckerState) :
    (check_file_format st.cvPath st.rules).1 = -(if extViol st then 30 else 0) := by
  by_cases h : lcString (splitextExt st.cvPath) ∈ st.rules.allowedExts <;>
    simp [check_file_format, extViol, h, SCORING_WEIGHTS]

theorem check_layout_fst (st : CheckerState) :
    (check_layout st.doc).1 =
      -((if tablesViol st then 15 else 0) + (if multicolViol st then 10 else 0)) := by
  rcases st with ⟨p, r, doc, is, sc⟩
  cases doc with
  | none => simp [check_layout, tablesViol, multicolViol]
  | some d =>
    by_cases h1 : d.tables > 0 <;> by_cases h2 : anyMulticol d.sections <;>
      simp [check_layout, tablesViol, multicolViol, h1, h2]

theorem check_fonts_fst (st : CheckerState) :
    (check_fonts st.doc st.rules).1 =
      -((if nonstdFontViol st then 10 else 0) + (if badSizeViol st then 5 else 0)) := by
  rcases st with ⟨p, r, doc, is, sc⟩
  cases doc with
  | none => simp [check_fonts, nonstdFontViol, badSizeViol]
  | some d =>
    by_cases h1 : collectNonstd d r.allowedFonts ≠ [] <;>
      by_cases h2 : collectBadSizes d (r.sizeMin.getD 10) (r.sizeMax.getD 12) ≠ [] <;>
        simp [check_fonts, nonstdFontViol, badSizeViol, h1, h2, SCORING_WEIGHTS]

theorem check_headers_footers_fst (st : CheckerState) :
    (check_headers_footers st.doc).1 = -(8 * (hdrCount st : Int) + 7 * (ftrCount st : Int)) := by
  rcases st with ⟨p, r, doc, is, sc⟩
  cases doc with
  | none => simp [check_headers_footers, hdrCount, ftrCount]
  | some d =>
    simp only [check_headers_footers, headersFootersFold_ded, hdrCount, ftrCount]

theorem check_graphics_fst (st : CheckerState) :
    (check_graphics st.doc).1 = -(if graphicsViol st then 20 else 0) := by
  rcases st with ⟨p, r, doc, is, sc⟩
  cases doc with
  | none => simp [check_graphics, graphicsViol]
  | some d =>
    by_cases h : d.relTargets.any (fun t => occursSub "image" (lcString t)) <;>
      simp [check_graphics, graphicsViol, h, SCORING_WEIGHTS]

theorem check_special_characters_fst (st : CheckerState) :
    (check_special_characters st.doc).1 = -(if specialViol st then 5 else 0) := by
  rcases st with ⟨p, r, doc, is, sc⟩
  cases doc with
  | none => simp [check_special_characters, specialViol]
  | some d =>
    by_cases h : unusualBullets.filter
        (fun b => occursSub b (String.intercalate "\n" (d.paragraphs.map (·.text)))) ≠ [] <;>
      simp [check_special_characters, specialViol, h]

theorem runChecks_fst (st : CheckerState) :
    (runChecks st.cvPath st.rules st.doc).1 = -(totalDeduction st) := by
  have h1 := check_file_format_fst st
  have h2 := check_layout_fst st
  have h3 := check_fonts_fst st
  have h4 := check_headers_footers_fst st
  have h5 := check_graphics_fst st
  have h6 := check_special_characters_fst st
  simp only [runChecks, h1, h2, h3, h4, h5, h6, totalDeduction]
  ring

theorem ite_w_nonneg {c : Prop} [Decidable c] {w : Int} (hw : 0 ≤ w) :
    0 ≤ if c then w else 0 := by
  split <;> simp [hw]

theorem ite_w_mono {c d : Prop} [Decidable c] [Decidable d] (h : c → d) {w : Int} (hw : 0 ≤ w) :
    (if c then w else 0) ≤ (if d then w else 0) := by
  by_cases hc : c
  · simp [hc, h hc]
  · simp [hc]; exact ite_w_nonneg hw

theorem totalDeduction_nonneg (st : CheckerState) : 0 ≤ totalDeduction st := by
  unfold totalDeduction
  have hh : (0 : Int) ≤ 8 * (hdrCount st : Int) := by positivity
  have hf : (0 : Int) ≤ 7 * (ftrCount st : Int) := by positivity
  repeat' apply add_nonneg
  all_goals first
    | exact ite_w_nonneg (by norm_num)
    | exact hh
    | exact hf

theorem totalDeduction_mono {st st' : CheckerState} (h : ViolLE st st') :
    totalDeduction st ≤ totalDeduction st' := by
  obtain ⟨h1, h2, h3, h4, h5, h6, h7, h8, h9⟩ := h
  unfold totalDeduction
  have hh : 8 * (hdrCount st : Int) ≤ 8 * (hdrCount st' : Int) := by
    have := h6; omega
  have hf : 7 * (ftrCount st : Int) ≤ 7 * (ftrCount st' : Int) := by
    have := h7; omega
  gcongr <;>
    first
      | exact ite_w_mono h1 (by norm_num)
      | exact ite_w_mono h2 (by norm_num)
      | exact ite_w_mono h3 (by norm_num)
      | exact ite_w_mono h4 (by norm_num)
      | exact ite_w_mono h5 (by norm_num)
      | exact ite_w_mono h8 (by norm_num)
      | exact ite_w_mono h9 (by norm_num)

/-- C1: the total score always lies in [0, 100] (clamped at the lower
bound), and it is monotonically non-increasing as violations are added to a
fixed base document: whenever every violation indicator of one checker
state is at most that of another, the second scores no higher. -/
theorem c1_total_score_bounds_mono (st : CheckerState) :
    0 ≤ (calculate_total_score st).1 ∧ (calculate_total_score st).1 ≤ 100 ∧
    ∀ st' : CheckerState, ViolLE st st' →
      (calculate_total_score st').1 ≤ (calculate_total_score st).1 := by
  have hfst : ∀ u : CheckerState,
      (calculate_total_score u).1 = max 0 (100 - totalDeduction u) := by
    intro u
    simp only [calculate_total_score, runChecks_fst]
    ring_nf
  refine ⟨?_, ?_, ?_⟩
  · rw [hfst]; exact le_max_left _ _
  · rw [hfst]
    have := totalDeduction_nonneg st
    exact max_le (by norm_num) (by omega)
  · intro st' hle
    rw [hfst, hfst]
    have := totalDeduction_mono hle
    exact max_le_max le_rfl (by omega)

/-- Witness for C1 at a clean checker state and one with a table added. -/
theorem c1_total_score_bounds_mono_witness :
    0 ≤ (calculate_total_score (initChecker "cv.docx" defaultRules (some docClean))).1 ∧
    (calculate_total_score (initChecker "cv.docx" defaultRules (some docClean))).1 ≤ 100 ∧
    (calculate_total_score (initChecker "cv.docx" defaultRules (some docTable))).1 ≤
      (calculate_total_score (initChecker "cv.docx" defaultRules (some docClean))).1 := by
  obtain ⟨a, b, c⟩ := c1_total_score_bounds_mono (initChecker "cv.docx" defaultRules (some docClean))
  refine ⟨a, b, c (initChecker "cv.docx" defaultRules (some docTable))
    ⟨fun h => absurd h (by decide), fun _ => by decide, fun h => absurd h (by decide),
     fun h => absurd h (by decide), fun h => absurd h (by decide), by decide, by decide,
     fun h => absurd h (by decide), fun h => absurd h (by decide)⟩⟩

/-- C2: in every `MatchReport`, `match_percentage` equals
`matched_keywords / total_keywords * 100` rounded to one decimal place when
`total_keywords > 0` and equals 0 when `total_keywords = 0`, and
`missing_keywords_list` holds at most 20 entries. -/
theorem c2_match_percentage_invariant (jdk : List (String × List String)) (cvText : String) :
    ((calculate_match_percentage jdk cvText).total_keywords > 0 →
      (calculate_match_percentage jdk cvText).match_percentage =
        round1 (((calculate_match_percentage jdk cvText).matched_keywords : ℚ)
          / ((calculate_match_percentage jdk cvText).total_keywords : ℚ) * 100)) ∧
    ((calculate_match_percentage jdk cvText).total_keywords = 0 →
      (calculate_match_percentage jdk cvText).match_percentage = 0) ∧
    (calculate_match_percentage jdk cvText).missing_keywords_list.length ≤ 20 := by
  refine ⟨?_, ?_, ?_⟩
  · intro h
    simp only [calculate_match_percentage] at h ⊢
    rw [if_pos h]
  · intro h
    simp only [calculate_match_percentage] at h ⊢
    rw [if_neg (by omega)]
  · simp only [calculate_match_percentage, List.length_take]
    exact min_le_left _ _

/-- Witness for C2 on the specification's scenario keyword set. -/
theorem c2_match_percentage_invariant_witness :
    (calculate_match_percentage [("skills", ["SQL", "Python", "Tableau"])]
      "I use SQL and Python daily").total_keywords > 0 ∧
    (calculate_match_percentage [("skills", ["SQL", "Python", "Tableau"])]
      "I use SQL and Python daily").match_percentage =
      round1 (((calculate_match_percentage [("skills", ["SQL", "Python", "Tableau"])]
          "I use SQL and Python daily").matched_keywords : ℚ)
        / ((calculate_match_percentage [("skills", ["SQL", "Python", "Tableau"])]
          "I use SQL and Python daily").total_keywords : ℚ) * 100) ∧
    (calculate_match_percentage [("skills", ["SQL", "Python", "Tableau"])]
      "I use SQL and Python daily").missing_keywords_list.length ≤ 20 :=
  ⟨by decide,
   (c2_match_percentage_invariant [("skills", ["SQL", "Python", "Tableau"])]
      "I use SQL and Python daily").1 (by decide),
   (c2_match_percentage_invariant [("skills", ["SQL", "Python", "Tableau"])]
      "I use SQL and Python daily").2.2⟩

/-- C7 counterexample: the keyword "C++" normalizes to "c++", which occurs
in the document text "c++" as a whole-word/phrase occurrence (no word
character adjacent on either side), yet the matcher counts it as missing:
the pattern's trailing `\b` after '+' demands a following word character. -/
theorem c7_counterexample :
    allKeywordsOf [("skills", ["C++"])] = ["c++"] ∧
    wholeWordOccurs "c++".data (lcString "c++").data = true ∧
    (calculate_match_percentage [("skills", ["C++"])] "c++").matched_keywords = 0 := by
  decide

theorem bne_true_eq (b : Bool) : (b != true) = !b := by cases b <;> rfl

theorem true_bne_eq (b : Bool) : (true != b) = !b := by cases b <;> rfl

theorem bmatchAt_eq_wholeWordAt {kw text : List Char} (i : Nat)
    (hh : wopt kw.head? = true) (hl : wopt kw.getLast? = true) :
    bmatchAt kw text i = wholeWordAt kw text i := by
  cases kw with
  | nil => simp [wopt] at hh
  | cons c rest =>
    have hc : wordChar c = true := by simpa [wopt] using hh
    simp only [bmatchAt, wholeWordAt, hc, hl, bne_true_eq, true_bne_eq]

/-- C7 (amended): a keyword is counted as matched iff the regex
word-boundary search succeeds; for every keyword whose first and last
characters are word characters this coincides exactly with a case-insensitive
whole-word/phrase occurrence, so in particular an occurrence inside a larger
word never counts.  (Keywords with a non-word edge character, such as
"c++", follow the `\b` semantics instead and can miss standalone
occurrences.) -/
theorem c7_boundary_match (jdk : List (String × List String)) (cvText : String) (k : String)
    (hh : wopt k.data.head? = true) (hl : wopt k.data.getLast? = true) :
    k ∈ matchedOf jdk cvText ↔
      (k ∈ allKeywordsOf jdk ∧
        wholeWordOccurs k.data (lcString cvText).data = true) := by
  have hsearch : kwPresent k (lcString cvText) = wholeWordOccurs k.data (lcString cvText).data := by
    unfold kwPresent bsearch wholeWordOccurs
    congr 1
    funext i
    exact bmatchAt_eq_wholeWordAt i hh hl
  rw [matchedOf, List.mem_filter, hsearch]

/-- Witness for C7's amended claim at a word-edged keyword. -/
theorem c7_boundary_match_witness :
    "sql" ∈ matchedOf [("skills", ["SQL"])] "I use sql daily" ↔
      ("sql" ∈ allKeywordsOf [("skills", ["SQL"])] ∧
        wholeWordOccurs "sql".data (lcString "I use sql daily").data = true) :=
  c7_boundary_match _ _ _ (by decide) (by decide)

/-- C8 counterexample: with "sql" listed in two categories, the top-level
pool deduplicates it while the breakdown counts it per category, so the
percentage recomputed from the aggregated counts (200/3 ≈ 66.7) differs
from the top-level `match_percentage` (50.0) beyond rounding tolerance. -/
theorem c8_counterexample :
    aggMatched (calculate_match_percentage [("a", ["sql", "python"]), ("b", ["sql"])] "sql") = 2 ∧
    aggTotal (calculate_match_percentage [("a", ["sql", "python"]), ("b", ["sql"])] "sql") = 3 ∧
    (calculate_match_percentage [("a", ["sql", "python"]), ("b", ["sql"])] "sql").match_percentage
      = 50 ∧
    recomputedPercentage
        (calculate_match_percentage [("a", ["sql", "python"]), ("b", ["sql"])] "sql")
      - (calculate_match_percentage [("a", ["sql", "python"]), ("b", ["sql"])] "sql").match_percentage
      = 50 / 3 ∧
    ¬ ((50 : ℚ) / 3 ≤ 1 / 2) := by
  have hagg1 : aggMatched
      (calculate_match_percentage [("a", ["sql", "python"]), ("b", ["sql"])] "sql") = 2 := by decide
  have hagg2 : aggTotal
      (calculate_match_percentage [("a", ["sql", "python"]), ("b", ["sql"])] "sql") = 3 := by decide
  have hm : (calculate_match_percentage [("a", ["sql", "python"]), ("b", ["sql"])]
      "sql").matched_keywords = 1 := by decide
  have ht : (calculate_match_percentage [("a", ["sql", "python"]), ("b", ["sql"])]
      "sql").total_keywords = 2 := by decide
  have hp := (c2_match_percentage_invariant [("a", ["sql", "python"]), ("b", ["sql"])] "sql").1
    (by decide)
  rw [hm, ht] at hp
  have h50 : (calculate_match_percentage [("a", ["sql", "python"]), ("b", ["sql"])]
      "sql").match_percentage = 50 := by
    rw [hp]
    have harg : ((1 : ℕ) : ℚ) / ((2 : ℕ) : ℚ) * 100 = 50 := by norm_num
    rw [harg]
    unfold round1 pyRound0
    norm_num
  refine ⟨hagg1, hagg2, h50, ?_, by norm_num⟩
  rw [recomputedPercentage, hagg1, hagg2, h50, if_pos (by norm_num)]
  norm_num

theorem foldl_normCat_app (l : List (String × List String)) :
    ∀ acc : List String,
      l.foldl (fun acc p => acc ++ normCat p.2) acc
        = acc ++ l.foldl (fun acc p => acc ++ normCat p.2) [] := by
  induction l with
  | nil => simp
  | cons q l ih =>
    intro acc
    simp only [List.foldl_cons, List.nil_append]
    rw [ih, ih (normCat q.2), List.append_assoc]

theorem allKeysRaw_cons (p : String × List String) (jdk : List (String × List String)) :
    allKeysRaw (p :: jdk) = normCat p.2 ++ allKeysRaw jdk := by
  unfold allKeysRaw
  simp only [List.foldl_cons, List.nil_append]
  exact foldl_normCat_app jdk (normCat p.2)

theorem insertUniq_not_mem {l : List String} {x : String} (h : x ∉ l) :
    insertUniq l x = l ++ [x] := by
  simp [insertUniq, h]

theorem foldl_insertUniq_nodup (l : List String) :
    ∀ acc : List String, (∀ x ∈ l, x ∉ acc) → l.Nodup → l.foldl insertUniq acc = acc ++ l := by
  induction l with
  | nil => simp
  | cons x xs ih =>
    intro acc hmem hnd
    simp only [List.foldl_cons]
    rw [insertUniq_not_mem (hmem x (by simp))]
    rw [ih (acc ++ [x]) ?_ (List.Nodup.of_cons hnd)]
    · simp
    · intro y hy
      simp only [List.mem_append, List.mem_singleton]
      rintro (h | h)
      · exact hmem y (by simp [hy]) h
      · exact (List.nodup_cons.mp hnd).1 (h ▸ hy)

theorem dedupFirst_of_nodup {l : List String} (h : l.Nodup) : dedupFirst l = l := by
  unfold dedupFirst
  simpa using foldl_insertUniq_nodup l [] (by simp) h

theorem categoryStat_total (cvLower : String) (ks : List String) :
    (categoryStat cvLower ks).total = (normCat ks).length := rfl

theorem categoryStat_matched (cvLower : String) (ks : List String) :
    (categoryStat cvLower ks).matched
      = ((normCat ks).filter (fun k => kwPresent k cvLower)).length := rfl

theorem breakdown_eq (jdk : List (String × List String)) (cv : String) :
    (calculate_match_percentage jdk cv).category_breakdown
      = jdk.map (fun p => (p.1, categoryStat (lcString cv) p.2)) := rfl

theorem aggTotal_eq (jdk : List (String × List String)) (cv : String) :
    aggTotal (calculate_match_percentage jdk cv) = (allKeysRaw jdk).length := by
  unfold aggTotal
  rw [breakdown_eq, List.map_map]
  induction jdk with
  | nil => simp [allKeysRaw]
  | cons p l ih =>
    simp only [List.map_cons, List.sum_cons, Function.comp_apply, categoryStat_total,
      allKeysRaw_cons, List.length_append, ih]

theorem aggMatched_eq (jdk : List (String × List String)) (cv : String) :
    aggMatched (calculate_match_percentage jdk cv)
      = ((allKeysRaw jdk).filter (fun k => kwPresent k (lcString cv))).length := by
  unfold aggMatched
  rw [breakdown_eq, List.map_map]
  induction jdk with
  | nil => simp [allKeysRaw]
  | cons p l ih =>
    simp only [List.map_cons, List.sum_cons, Function.comp_apply, categoryStat_matched,
      allKeysRaw_cons, List.filter_append, List.length_append, ih]

/-- C8 (amended): when no normalized keyword occurs more than once across
the category lists, the aggregated breakdown counts equal the top-level
counts, and the top-level `match_percentage` is exactly the one-decimal
rounding of the percentage recomputed from the aggregated counts.  (With a
keyword shared between categories the two percentages can differ, per the
counterexample.) -/
theorem c8_aggregate_consistency (jdk : List (String × List String)) (cv : String)
    (h : (allKeysRaw jdk).Nodup) :
    aggMatched (calculate_match_percentage jdk cv)
      = (calculate_match_percentage jdk cv).matched_keywords ∧
    aggTotal (calculate_match_percentage jdk cv)
      = (calculate_match_percentage jdk cv).total_keywords ∧
    ((calculate_match_percentage jdk cv).total_keywords > 0 →
      (calculate_match_percentage jdk cv).match_percentage =
        round1 (recomputedPercentage (calculate_match_percentage jdk cv))) := by
  have hded : allKeywordsOf jdk = allKeysRaw jdk := by
    unfold allKeywordsOf
    exact dedupFirst_of_nodup h
  have hm : aggMatched (calculate_match_percentage jdk cv)
      = (calculate_match_percentage jdk cv).matched_keywords := by
    rw [aggMatched_eq]
    simp [calculate_match_percentage, matchedOf, hded]
  have ht : aggTotal (calculate_match_percentage jdk cv)
      = (calculate_match_percentage jdk cv).total_keywords := by
    rw [aggTotal_eq]
    simp [calculate_match_percentage, hded]
  refine ⟨hm, ht, fun hpos => ?_⟩
  have htot : aggTotal (calculate_match_percentage jdk cv) > 0 := by omega
  rw [recomputedPercentage, if_pos htot, hm, ht]
  have h1 := (c2_match_percentage_invariant jdk cv).1 hpos
  exact h1

/-- Witness for C8's amended claim on a duplicate-free keyword mapping. -/
theorem c8_aggregate_consistency_witness :
    aggMatched (calculate_match_percentage [("a", ["SQL"]), ("b", ["Python"])] "sql")
      = (calculate_match_percentage [("a", ["SQL"]), ("b", ["Python"])] "sql").matched_keywords ∧
    aggTotal (calculate_match_percentage [("a", ["SQL"]), ("b", ["Python"])] "sql")
      = (calculate_match_percentage [("a", ["SQL"]), ("b", ["Python"])] "sql").total_keywords ∧
    ((calculate_match_percentage [("a", ["SQL"]), ("b", ["Python"])] "sql").total_keywords > 0 →
      (calculate_match_percentage [("a", ["SQL"]), ("b", ["Python"])] "sql").match_percentage =
        round1 (recomputedPercentage
          (calculate_match_percentage [("a", ["SQL"]), ("b", ["Python"])] "sql"))) :=
  c8_aggregate_consistency [("a", ["SQL"]), ("b", ["Python"])] "sql" (by decide)

theorem foldl_app_gen {α β : Type} (g : α → List β) (l : List α) :
    ∀ acc : List β, l.foldl (fun acc x => acc ++ g x) acc
      = acc ++ l.foldl (fun acc x => acc ++ g x) [] := by
  induction l with
  | nil => simp
  | cons x xs ih =>
    intro acc
    simp only [List.foldl_cons, List.nil_append]
    rw [ih, ih (g x), List.append_assoc]

theorem recsRaw_append (l1 l2 : List Issue) :
    (l1 ++ l2).foldl (fun acc i => acc ++ recFor i) []
      = l1.foldl (fun acc i => acc ++ recFor i) []
        ++ l2.foldl (fun acc i => acc ++ recFor i) [] := by
  rw [List.foldl_append]
  exact foldl_app_gen recFor l2 _

theorem mem_insertUniq {l : List String} (x : String) {y : String} (h : y ∈ l) :
    y ∈ insertUniq l x := by
  unfold insertUniq; split <;> simp [h]

theorem self_mem_insertUniq (l : List String) (x : String) : x ∈ insertUniq l x := by
  unfold insertUniq; split <;> simp_all

theorem mem_foldl_insertUniq_of_acc (l : List String) :
    ∀ acc x, x ∈ acc → x ∈ l.foldl insertUniq acc := by
  induction l with
  | nil => simp
  | cons y ys ih => exact fun acc x hx => ih _ x (mem_insertUniq y hx)

theorem mem_foldl_insertUniq (l : List String) :
    ∀ acc x, x ∈ l → x ∈ l.foldl insertUniq acc := by
  induction l with
  | nil => simp
  | cons y ys ih =>
    intro acc x hx
    rcases List.mem_cons.mp hx with rfl | hx'
    · exact mem_foldl_insertUniq_of_acc ys _ x (self_mem_insertUniq _ _)
    · exact ih _ x hx'

theorem foldl_insertUniq_of_subset (l : List String) :
    ∀ acc, (∀ x ∈ l, x ∈ acc) → l.foldl insertUniq acc = acc := by
  induction l with
  | nil => simp
  | cons y ys ih =>
    intro acc h
    simp only [List.foldl_cons]
    have hy : insertUniq acc y = acc := by unfold insertUniq; rw [if_pos (h y (by simp))]
    rw [hy]
    exact ih acc (fun x hx => h x (by simp [hx]))

theorem dedupFirst_append_self (l : List String) : dedupFirst (l ++ l) = dedupFirst l := by
  unfold dedupFirst
  rw [List.foldl_append]
  exact foldl_insertUniq_of_subset l _ (fun x hx => mem_foldl_insertUniq l [] x hx)

theorem getRecommendations_append_self (l : List Issue) :
    getRecommendations (l ++ l) = getRecommendations l := by
  unfold getRecommendations
  rw [recsRaw_append, dedupFirst_append_self]

/-- C6 (amended): re-running `extract_all` is pure by construction, and the
checker's `generate_report` recomputes score, grade and recommendations
identically on a second run — but the issue list is *not* reset between
runs: after two runs the state holds two copies of every issue, so the
second report equals the first exactly when the document produces no
issues. -/
theorem c6_report_rerun (cvPath : String) (rules : Rules) (doc : Option DocSnapshot) :
    (generate_report (generate_report (initChecker cvPath rules doc)).2).1.score
      = (generate_report (initChecker cvPath rules doc)).1.score ∧
    (generate_report (generate_report (initChecker cvPath rules doc)).2).1.grade
      = (generate_report (initChecker cvPath rules doc)).1.grade ∧
    (generate_report (generate_report (initChecker cvPath rules doc)).2).1.recommendations
      = (generate_report (initChecker cvPath rules doc)).1.recommendations ∧
    (generate_report (generate_report (initChecker cvPath rules doc)).2).2.issues
      = (runChecks cvPath rules doc).2 ++ (runChecks cvPath rules doc).2 ∧
    ((runChecks cvPath rules doc).2 = [] →
      (generate_report (generate_report (initChecker cvPath rules doc)).2).1
        = (generate_report (initChecker cvPath rules doc)).1) ∧
    ((runChecks cvPath rules doc).2 ≠ [] →
      (generate_report (generate_report (initChecker cvPath rules doc)).2).1
        ≠ (generate_report (initChecker cvPath rules doc)).1) := by
  refine ⟨rfl, rfl, ?_, by simp [generate_report, calculate_total_score, initChecker], ?_, ?_⟩
  · show getRecommendations (([] ++ (runChecks cvPath rules doc).2) ++ (runChecks cvPath rules doc).2)
      = getRecommendations ([] ++ (runChecks cvPath rules doc).2)
    rw [List.nil_append]
    exact getRecommendations_append_self _
  · intro h
    simp [generate_report, calculate_total_score, initChecker, h]
  · intro h hEq
    have hlen := congrArg (fun r => r.issues.length) hEq
    simp only [generate_report, calculate_total_score, initChecker, sortIssues,
      List.length_mergeSort, List.length_append, List.nil_append, List.length_nil] at hlen
    have : (runChecks cvPath rules doc).2.length ≠ 0 := by
      intro h0
      exact h (List.length_eq_zero.mp h0)
    omega

/-- Witness for C6's amended claim on a document with one table. -/
theorem c6_report_rerun_witness :
    (generate_report (generate_report (initChecker "cv.docx" defaultRules (some docTable))).2).1.score
      = (generate_report (initChecker "cv.docx" defaultRules (some docTable))).1.score ∧
    (generate_report (generate_report (initChecker "cv.docx" defaultRules (some docTable))).2).1
      ≠ (generate_report (initChecker "cv.docx" defaultRules (some docTable))).1 :=
  ⟨(c6_report_rerun "cv.docx" defaultRules (some docTable)).1,
   (c6_report_rerun "cv.docx" defaultRules (some docTable)).2.2.2.2.2 (by decide)⟩

/-- C6 counterexample: on a document with one table, running the report
generation twice yields a different second report (its issue list holds the
table issue twice), so report generation is not idempotent. -/
theorem c6_counterexample :
    (generate_report (generate_report (initChecker "cv.docx" defaultRules (some docTable))).2).1
      ≠ (generate_report (initChecker "cv.docx" defaultRules (some docTable))).1 := by
  intro hEq
  have hlen := congrArg (fun r => r.issues.length) hEq
  simp only [generate_report, calculate_total_score, initChecker, sortIssues,
    List.length_mergeSort, List.length_append, List.nil_append, List.length_nil] at hlen
  have hone : (runChecks "cv.docx" defaultRules (some docTable)).2.length = 1 := by decide
  omega

theorem firstOccIdx_eq_none {n h : List Char} (hno : listOccurs n h = false) :
    firstOccIdx n h = none := by
  induction h with
  | nil =>
    simp only [listOccurs] at hno
    simp [firstOccIdx, hno]
  | cons c t ih =>
    simp only [listOccurs, Bool.or_eq_false_iff] at hno
    simp [firstOccIdx, hno.1, ih hno.2]

theorem listOccurs_tail {n : List Char} {c : Char} {t : List Char}
    (h : listOccurs n (c :: t) = false) : listOccurs n t = false := by
  simp only [listOccurs, Bool.or_eq_false_iff] at h
  exact h.2

theorem ciDrop_lower_isPrefixOf {l : List Char} :
    ∀ {cs rest : List Char}, ciDrop l cs = some rest →
      (l.map Char.toLower).isPrefixOf (cs.map Char.toLower) = true := by
  induction l with
  | nil => intro cs rest _; simp [List.isPrefixOf]
  | cons a l ih =>
    intro cs rest h
    cases cs with
    | nil => simp [ciDrop] at h
    | cons c cs' =>
      simp only [ciDrop] at h
      by_cases hac : a.toLower == c.toLower
      · rw [if_pos hac] at h
        simp only [List.map_cons, List.isPrefixOf, hac, Bool.true_and]
        exact ih h
      · rw [if_neg hac] at h
        exact absurd h (by simp)

theorem listOccurs_of_isPrefixOf {n h : List Char} (hp : n.isPrefixOf h = true) :
    listOccurs n h = true := by
  cases h with
  | nil =>
    cases n with
    | nil => rfl
    | cons a l => simp [List.isPrefixOf] at hp
  | cons c t => simp [listOccurs, hp]

theorem foldl_fix {α β : Type} (f : β → α → β) :
    ∀ l : List α, (∀ acc x, x ∈ l → f acc x = acc) → ∀ acc, l.foldl f acc = acc := by
  intro l
  induction l with
  | nil => intro _ acc; rfl
  | cons x xs ih =>
    intro h acc
    rw [List.foldl_cons, h acc x (by simp)]
    exact ih (fun acc y hy => h acc y (by simp [hy])) acc

theorem markerWindows_empty {markers : List String} {t : String}
    (h : ∀ m ∈ markers, ¬ occursSub m (lcString t)) :
    markerWindows markers t = "" := by
  unfold markerWindows
  apply foldl_fix _ markers
  intro acc m hm
  have : firstOccIdx m.data (lcString t).data = none := by
    apply firstOccIdx_eq_none
    have := h m hm
    simpa [occursSub] using this
  simp [this]

theorem extract_required_vs_preferred_required_nil {t : String}
    (h : ∀ m ∈ REQUIRED_MARKERS, ¬ occursSub m (lcString t)) :
    (extract_required_vs_preferred t).1 = [] := by
  show extractBullets (markerWindows REQUIRED_MARKERS t) = []
  rw [markerWindows_empty h]
  rfl

theorem extract_required_vs_preferred_preferred_nil {t : String}
    (h : ∀ m ∈ PREFERRED_MARKERS, ¬ occursSub m (lcString t)) :
    (extract_required_vs_preferred t).2 = [] := by
  show extractBullets (markerWindows PREFERRED_MARKERS t) = []
  rw [markerWindows_empty h]
  rfl

theorem extract_company_values_nil {t : String}
    (h : ∀ m ∈ valueMarkers, ¬ occursSub m (lcString t)) :
    extract_company_values t = [] := by
  unfold extract_company_values
  have hfold := foldl_fix
    (fun (acc : List String) (m : String) =>
      match firstOccIdx m.data (lcString t).data with
      | some start =>
        let sect := (t.data.drop start).take 500
        acc ++ (scanCapWords (sect.length + 1) none sect).take 5
      | none => acc)
    valueMarkers
    (by
      intro acc m hm
      have : firstOccIdx m.data (lcString t).data = none := by
        apply firstOccIdx_eq_none
        have := h m hm
        simpa [occursSub] using this
      simp [this])
    []
  rw [hfold]
  rfl

theorem altMatchAt_none {alts : List String} {prev : Option Char} {cs : List Char}
    (h : ∀ alt ∈ alts, listOccurs (alt.data.map Char.toLower) (cs.map Char.toLower) = false) :
    altMatchAt alts prev cs = none := by
  unfold altMatchAt
  split
  · rfl
  · apply List.findSome?_eq_none_iff.mpr
    intro alt halt
    cases hcd : ciDrop alt.data cs with
    | none => simp [hcd]
    | some rest =>
      exfalso
      have htrue := listOccurs_of_isPrefixOf (ciDrop_lower_isPrefixOf hcd)
      rw [h alt halt] at htrue
      exact Bool.false_ne_true htrue

theorem scanAlts_nil (alts : List String) :
    ∀ (fuel : Nat) (prev : Option Char) (cs : List Char),
      (∀ alt ∈ alts, listOccurs (alt.data.map Char.toLower) (cs.map Char.toLower) = false) →
      scanAlts alts fuel prev cs = [] := by
  intro fuel
  induction fuel with
  | zero => intro _ cs _; cases cs <;> rfl
  | succ fuel ih =>
    intro prev cs h
    cases cs with
    | nil => rfl
    | cons c r =>
      simp only [scanAlts, altMatchAt_none h]
      exact ih (some c) r (fun alt halt => listOccurs_tail (h alt halt))

theorem extract_technical_skills_nil {t : String}
    (h : ∀ p ∈ SKILL_PATTERNS, ∀ alt ∈ p.2, ¬ occursCI alt t) :
    extract_technical_skills t = [] := by
  have hfold := foldl_fix
    (fun (acc : List String) (p : String × List String) =>
      acc ++ scanAlts p.2 (t.data.length + 1) none t.data)
    SKILL_PATTERNS
    (by
      intro acc p hp
      have hz : scanAlts p.2 (t.data.length + 1) none t.data = [] := by
        apply scanAlts_nil
        intro alt halt
        have := h p hp alt halt
        simpa [occursCI, occursSub, lcString] using this
      show acc ++ scanAlts p.2 (t.data.length + 1) none t.data = acc
      rw [hz, List.append_nil])
    []
  show ((dedupFirst
    (SKILL_PATTERNS.foldl
      (fun acc p => acc ++ scanAlts p.2 (t.data.length + 1) none t.data)
      [])).mergeSort (fun a b => decide (a ≤ b))) = []
  rw [hfold]
  simp [dedupFirst, List.mergeSort_nil]

theorem extract_verbatim_phrases_nil {t : String}
    (h : ∀ s ∈ splitSents t, ¬ vAccept 10 30 (pyStrip s)) :
    extract_verbatim_phrases t = [] := by
  unfold extract_verbatim_phrases
  have : ((splitSents t).map pyStrip).filter (vAccept 10 30) = [] := by
    apply List.filter_eq_nil_iff.mpr
    intro a ha
    obtain ⟨s, hs, rfl⟩ := List.mem_map.mp ha
    exact h s hs
  rw [this]
  rfl

theorem structLoop_id (lines : List String) :
    ∀ acc, (∀ l ∈ lines, headerGroups (pyStrip l).data = []) → structLoop lines acc = acc := by
  induction lines with
  | nil => intro acc _; rfl
  | cons l rest ih =>
    intro acc h
    simp only [structLoop, h l (by simp), List.foldl_nil]
    exact ih acc (fun x hx => h x (by simp [hx]))

theorem analyze_structure_nil {t : String}
    (h : ∀ l ∈ (splitOnChar '\n' t.data).map String.mk, headerGroups (pyStrip l).data = []) :
    analyze_structure t = ⟨[], [], []⟩ := by
  unfold analyze_structure
  exact structLoop_id _ _ h

theorem scanLowerTokens_nil :
    ∀ (fuel : Nat) (prev : Option Char) (cs : List Char),
      (∀ c ∈ cs, c.isLower = false) → scanLowerTokens fuel prev cs = [] := by
  intro fuel
  induction fuel with
  | zero => intro _ cs _; cases cs <;> rfl
  | succ fuel ih =>
    intro prev cs h
    cases cs with
    | nil => rfl
    | cons c r =>
      simp only [scanLowerTokens, h c (by simp), Bool.false_and, Bool.false_eq_true, if_false]
      exact ih (some c) r (fun x hx => h x (by simp [hx]))

theorem calculate_keyword_density_nil {t : String}
    (h : ∀ c ∈ (lcString t).data, c.isLower = false) :
    calculate_keyword_density t = [] := by
  show (((wordCounts
      ((scanLowerTokens ((lcString t).data.length + 1) none (lcString t).data).filter
        (fun w => ¬ w ∈ densityStopWords))).mergeSort
    (fun a b => decide (b.2 ≤ a.2))).take 20) = []
  rw [scanLowerTokens_nil _ _ _ h]
  simp [wordCounts, dedupFirst, List.mergeSort_nil]

theorem expMatchAt_none {cs : List Char} (h : ∀ c ∈ cs, c.isDigit = false) :
    expMatchAt cs = none := by
  unfold expMatchAt
  cases cs with
  | nil => rfl
  | cons c r => simp [h c (by simp)]

theorem scanExp_nil :
    ∀ (fuel : Nat) (cs : List Char),
      (∀ c ∈ cs, c.isDigit = false) → scanExp fuel cs = [] := by
  intro fuel
  induction fuel with
  | zero => intro cs _; cases cs <;> rfl
  | succ fuel ih =>
    intro cs h
    cases cs with
    | nil => rfl
    | cons c r =>
      simp only [scanExp, expMatchAt_none h]
      exact ih r (fun x hx => h x (by simp [hx]))

theorem domMatchAt_none {lit cs : List Char}
    (h : listOccurs (lit.map Char.toLower) (cs.map Char.toLower) = false) :
    domMatchAt lit cs = none := by
  unfold domMatchAt
  cases hcd : ciDrop lit cs with
  | none => rfl
  | some r1 =>
    exfalso
    have htrue := listOccurs_of_isPrefixOf (ciDrop_lower_isPrefixOf hcd)
    rw [h] at htrue
    exact Bool.false_ne_true htrue

theorem scanDom_nil (lit : List Char) :
    ∀ (fuel : Nat) (cs : List Char),
      listOccurs (lit.map Char.toLower) (cs.map Char.toLower) = false →
      scanDom lit fuel cs = [] := by
  intro fuel
  induction fuel with
  | zero => intro cs _; cases cs <;> rfl
  | succ fuel ih =>
    intro cs h
    cases cs with
    | nil => rfl
    | cons c r =>
      simp only [scanDom, domMatchAt_none h]
      exact ih r (listOccurs_tail h)

theorem extract_experience_requirements_nil {t : String}
    (hd : ∀ c ∈ t.data, c.isDigit = false)
    (he : ¬ occursCI "experience" t) (hb : ¬ occursCI "background" t) :
    extract_experience_requirements t = [] := by
  show dedupFirst
    (scanExp (t.data.length + 1) t.data
      ++ scanDom "experience".data (t.data.length + 1) t.data
      ++ scanDom "background".data (t.data.length + 1) t.data) = []
  rw [scanExp_nil _ _ hd,
    scanDom_nil _ _ _ (by simpa [occursCI, occursSub, lcString] using he),
    scanDom_nil _ _ _ (by simpa [occursCI, occursSub, lcString] using hb)]
  rfl

/-- C3: `extract_all` is a total function of the input text, and each of
its list fields degrades to empty when its sub-extraction finds nothing: no
required/preferred marker phrase present gives empty skill lists, no value
marker gives empty company values, no skill-pattern literal occurring gives
empty technical skills and tools, no acceptable sentence gives empty
verbatim phrases, no header-pattern line gives the empty structure, no
lowercase letter gives empty keyword density, and no digit together with no
"experience"/"background" occurrence gives empty experience requirements. -/
theorem c3_extract_all_defaults (t : String) :
    ((∀ m ∈ REQUIRED_MARKERS, ¬ occursSub m (lcString t)) →
      (extract_all t).required_skills = []) ∧
    ((∀ m ∈ PREFERRED_MARKERS, ¬ occursSub m (lcString t)) →
      (extract_all t).preferred_skills = []) ∧
    ((∀ m ∈ valueMarkers, ¬ occursSub m (lcString t)) →
      (extract_all t).company_values = []) ∧
    ((∀ p ∈ SKILL_PATTERNS, ∀ alt ∈ p.2, ¬ occursCI alt t) →
      (extract_all t).technical_skills = [] ∧ (extract_all t).tools_technologies = []) ∧
    ((∀ s ∈ splitSents t, ¬ vAccept 10 30 (pyStrip s)) →
      (extract_all t).verbatim_phrases = []) ∧
    ((∀ l ∈ (splitOnChar '\n' t.data).map String.mk, headerGroups (pyStrip l).data = []) →
      (extract_all t).structure' = ⟨[], [], []⟩) ∧
    ((∀ c ∈ (lcString t).data, c.isLower = false) →
      (extract_all t).keyword_density = []) ∧
    (((∀ c ∈ t.data, c.isDigit = false) ∧ ¬ occursCI "experience" t ∧
        ¬ occursCI "background" t) →
      (extract_all t).experience_requirements = []) := by
  refine ⟨?_, ?_, ?_, ?_, ?_, ?_, ?_, ?_⟩
  · exact fun h => extract_required_vs_preferred_required_nil h
  · exact fun h => extract_required_vs_preferred_preferred_nil h
  · exact fun h => extract_company_values_nil h
  · exact fun h => ⟨extract_technical_skills_nil h, extract_technical_skills_nil h⟩
  · exact fun h => extract_verbatim_phrases_nil h
  · exact fun h => analyze_structure_nil h
  · exact fun h => calculate_keyword_density_nil h
  · exact fun h => extract_experience_requirements_nil h.1 h.2.1 h.2.2

/-- Witness for C3 on the empty text: every hypothesis holds and every
field is empty. -/
theorem c3_extract_all_defaults_witness :
    (extract_all "").required_skills = [] ∧
    (extract_all "").preferred_skills = [] ∧
    (extract_all "").company_values = [] ∧
    (extract_all "").technical_skills = [] ∧
    (extract_all "").tools_technologies = [] ∧
    (extract_all "").verbatim_phrases = [] ∧
    (extract_all "").structure' = ⟨[], [], []⟩ ∧
    (extract_all "").keyword_density = [] ∧
    (extract_all "").experience_requirements = [] := by
  obtain ⟨h1, h2, h3, h4, h5, h6, h7, h8⟩ := c3_extract_all_defaults ""
  obtain ⟨h4a, h4b⟩ := h4 (by decide)
  exact ⟨h1 (by decide), h2 (by decide), h3 (by decide), h4a, h4b,
    h5 (by decide), h6 (by decide), h7 (by decide), h8 ⟨by decide, by decide, by decide⟩⟩

theorem tryTemplate_none {r : Option (List Char)}
    (h : ∀ g, r = some g → 6 < (pySplitWS (cleanTitle g)).length) :
    tryTemplate r = none := by
  cases r with
  | none => rfl
  | some g =>
    have := h g rfl
    simp [tryTemplate]
    omega

theorem tryTemplate_wordcount {r : Option (List Char)} {s : String}
    (h : tryTemplate r = some s) : (pySplitWS s).length ≤ 6 := by
  cases r with
  | none => simp [tryTemplate] at h
  | some g =>
    simp only [tryTemplate] at h
    by_cases hw : (pySplitWS (cleanTitle g)).length ≤ 6
    · rw [if_pos hw] at h
      cases h
      exact hw
    · rw [if_neg hw] at h
      exact absurd h (by simp)

/-- C9: when no regex template yields a match whose cleaned title has at
most six words, and no 2–5 word span among the `'.'`-separated pieces of
the first 500 characters has all of its alphabetic words capitalized,
`extract_job_title` returns exactly the sentinel "Unknown Title"; and any
title the template phase returns has at most six words. -/
theorem c9_unknown_title :
    (∀ t : String,
      (∀ g, searchP1 t = some g → 6 < (pySplitWS (cleanTitle g)).length) →
      (∀ g, searchP2 t = some g → 6 < (pySplitWS (cleanTitle g)).length) →
      (∀ g, searchP3 t = some g → 6 < (pySplitWS (cleanTitle g)).length) →
      (∀ g, searchP4 t = some g → 6 < (pySplitWS (cleanTitle g)).length) →
      (∀ g, searchP5 t = some g → 6 < (pySplitWS (cleanTitle g)).length) →
      (∀ g, searchP6 t = some g → 6 < (pySplitWS (cleanTitle g)).length) →
      (∀ sent ∈ (splitOnChar '.' (t.data.take 500)).map String.mk,
        fallbackOkWords (pySplitWS (pyStrip sent)) = false) →
      extract_job_title t = "Unknown Title") ∧
    (∀ (t : String) (s : String), templateTitle t = some s → (pySplitWS s).length ≤ 6) := by
  constructor
  · intro t h1 h2 h3 h4 h5 h6 hfb
    have htpl : templateTitle t = none := by
      apply List.findSome?_eq_none_iff.mpr
      intro r hr
      simp only [List.mem_cons, List.not_mem_nil, or_false] at hr
      rcases hr with rfl | rfl | rfl | rfl | rfl | rfl
      · exact tryTemplate_none h1
      · exact tryTemplate_none h2
      · exact tryTemplate_none h3
      · exact tryTemplate_none h4
      · exact tryTemplate_none h5
      · exact tryTemplate_none h6
    have hfall : fallbackTitle t = none := by
      apply List.findSome?_eq_none_iff.mpr
      intro sent hsent
      have := hfb sent hsent
      simp only [this, Bool.false_eq_true, if_false]
    rw [extract_job_title, htpl, hfall]
  · intro t s hts
    obtain ⟨r, _, hr⟩ := List.exists_of_findSome?_eq_some hts
    exact tryTemplate_wordcount hr

theorem none_imp_wordcount {r : Option (List Char)} (h : r = none) :
    ∀ g, r = some g → 6 < (pySplitWS (cleanTitle g)).length := by
  intro g hg
  rw [h] at hg
  exact Option.noConfusion hg

/-- Witness for C9: a text with no template match and no capitalized span
yields the sentinel, and a template-extracted title obeys the word bound. -/
theorem c9_unknown_title_witness :
    extract_job_title "zzz zzz zzz" = "Unknown Title" ∧
    (pySplitWS "Data Analyst").length ≤ 6 :=
  ⟨c9_unknown_title.1 "zzz zzz zzz"
      (none_imp_wordcount (by decide)) (none_imp_wordcount (by decide))
      (none_imp_wordcount (by decide)) (none_imp_wordcount (by decide))
      (none_imp_wordcount (by decide)) (none_imp_wordcount (by decide)) (by decide),
   c9_unknown_title.2 "Position: Data Analyst" "Data Analyst" (by decide)⟩

end ResumeCritic
